import Mathlib

set_option maxRecDepth 100000
/-!
Verification of the multi-provider LLM orchestration core of the speech-writer
repository (src/core/llm_providers.py, src/core/pdf_processor.py, src/web_app.py).

The Python code is shallowly embedded as follows.

* Strings are Lean `String`s; Python `str.strip()` is `pyStrip` (code-point level,
  whitespace as `Char.isWhitespace`), Python slicing `s[:n]` is `pyTake`, the Python
  substring test `needle in hay` is `strContainsSub`.
* Exceptions are modelled as `Except String` values carrying the exception message
  exactly as the code builds it (`raise Exception(msg)` becomes `.error msg`,
  `except` blocks become `match` on the `Except` value).
* The HTTP layer inside each provider `_make_request` is abstracted by a `Network`
  state holding a call counter and the outcome of the next HTTP POST: `.ok content`
  stands for a 200 response whose vendor-specific envelope was parsed successfully
  down to the generated-text field, `.error e` stands for any exception raised in
  the request try-block (network failure, the non-2xx `API request failed` raise, or
  an envelope parse error), with `e` its message. Every embedded operation threads
  `Network` explicitly, so the number of HTTP calls an operation makes is visible in
  the state.
* The prompt f-strings are transcribed literally (long literals are split at line
  breaks; `++` concatenation of the pieces yields exactly the Python string).
-/

/-- Tokenization of a character list into maximal whitespace-free words,
carrying the word accumulated so far (in reverse). Used to state that two
prompts agree modulo whitespace. -/
def wtokAux : List Char → List Char → List String
  | [], acc => if acc.isEmpty then [] else [⟨acc.reverse⟩]
  | c :: cs, acc =>
    if c.isWhitespace then (if acc.isEmpty then [] else [⟨acc.reverse⟩]) ++ wtokAux cs []
    else wtokAux cs (c :: acc)

/-- The whitespace-separated words of a character list. -/
def wtokens (l : List Char) : List String := wtokAux l []

/-- The whitespace-separated words of a string. -/
def wtokensS (s : String) : List String := wtokens s.data

/-- The substring relation on strings (`needle` occurs contiguously in `hay`). -/
def IsSubstrOf (needle hay : String) : Prop := ∃ pre post, hay = pre ++ needle ++ post

/-- Executable substring test; embeds the Python expression `needle in hay`. -/
def strContainsSub (hay needle : String) : Bool := decide (needle.data <:+: hay.data)

/-- Embedding of Python `str.strip()`: drop leading and trailing whitespace. -/
def pyStrip (s : String) : String :=
  ⟨((s.data.dropWhile Char.isWhitespace).reverse.dropWhile Char.isWhitespace).reverse⟩

/-- Embedding of Python slicing `s[:n]` (first `n` code points). -/
def pyTake (s : String) (n : Nat) : String := ⟨s.data.take n⟩
-- Prompt and message strings transcribed from src/core/llm_providers.py.

def OpenAIProvider.extract_prompt (full_text speaker_name : String) : String :=
  "\n"
    ++ "            From the following transcript, extract the prepared remarks or main presentation content by "
    ++ speaker_name
    ++ ".\n"
    ++ "            Look for content where "
    ++ speaker_name
    ++ " is:\n"
    ++ "            - Giving opening statements or prepared presentations\n"
    ++ "            - Reading from prepared scripts or notes\n"
    ++ "            - Delivering formal remarks or speeches\n"
    ++ "            - Making structured presentations (not answering questions)\n"
    ++ "            IMPORTANT: Be flexible with name matching - look for:\n"
    ++ "            - \""
    ++ speaker_name
    ++ "\" (case-insensitive - match \"john\" with \"John\", \"JOHN\", etc.)\n"
    ++ "            - Variations like first name only, last name only, or titles (Mr./Ms./CEO/etc.)\n"
    ++ "            - Similar sounding names or abbreviated versions\n"
    ++ "            - Any capitalization variations of the name\n"
    ++ "            DO NOT include:\n"
    ++ "            - Q&A responses or answers to questions\n"
    ++ "            - Introductions by moderators or other people\n"
    ++ "            - Brief interjections or casual comments\n"
    ++ "            Return only the extracted prepared remarks text, without any commentary or explanation.\n"
    ++ "            If no substantial prepared content is found (only Q&A or brief comments), return "
    ++ "\"NO_PREPARED_REMARKS_FOUND\".\n"
    ++ "            Transcript:\n"
    ++ "            "
    ++ full_text
    ++ "\n"
    ++ "            "

def ClaudeProvider.extract_prompt (full_text speaker_name : String) : String :=
  "\n"
    ++ "            From the following transcript, extract the prepared remarks or main presentation content by "
    ++ speaker_name
    ++ ".\n"
    ++ "            Look for content where "
    ++ speaker_name
    ++ " is:\n"
    ++ "            - Giving opening statements or prepared presentations\n"
    ++ "            - Reading from prepared scripts or notes\n"
    ++ "            - Delivering formal remarks or speeches\n"
    ++ "            - Making structured presentations (not answering questions)\n"
    ++ "            IMPORTANT: Be flexible with name matching - look for:\n"
    ++ "            - \""
    ++ speaker_name
    ++ "\" (case-insensitive - match \"john\" with \"John\", \"JOHN\", etc.)\n"
    ++ "            - Variations like first name only, last name only, or titles (Mr./Ms./CEO/etc.)\n"
    ++ "            - Similar sounding names or abbreviated versions\n"
    ++ "            - Any capitalization variations of the name\n"
    ++ "            DO NOT include:\n"
    ++ "            - Q&A responses or answers to questions\n"
    ++ "            - Introductions by moderators or other people\n"
    ++ "            - Brief interjections or casual comments\n"
    ++ "            Return only the extracted prepared remarks text, without any commentary or explanation.\n"
    ++ "            If no substantial prepared content is found (only Q&A or brief comments), return "
    ++ "\"NO_PREPARED_REMARKS_FOUND\".\n"
    ++ "            Transcript:\n"
    ++ "            "
    ++ full_text
    ++ "\n"
    ++ "            "

def GeminiProvider.extract_prompt (full_text speaker_name : String) : String :=
  "You are an expert at extracting prepared remarks from business transcripts. Extract only the formal, prepared "
    ++ "content by the specified speaker.\n"
    ++ "\n"
    ++ "From the following transcript, extract the prepared remarks or main presentation content by "
    ++ speaker_name
    ++ ".\n"
    ++ "Look for content where "
    ++ speaker_name
    ++ " is:\n"
    ++ "- Giving opening statements or prepared presentations\n"
    ++ "- Reading from prepared scripts or notes\n"
    ++ "- Delivering formal remarks or speeches\n"
    ++ "- Making structured presentations (not answering questions)\n"
    ++ "IMPORTANT: Be flexible with name matching - look for:\n"
    ++ "- \""
    ++ speaker_name
    ++ "\" (case-insensitive - match \"john\" with \"John\", \"JOHN\", etc.)\n"
    ++ "- Variations like first name only, last name only, or titles (Mr./Ms./CEO/etc.)\n"
    ++ "- Similar sounding names or abbreviated versions\n"
    ++ "- Any capitalization variations of the name\n"
    ++ "DO NOT include:\n"
    ++ "- Q&A responses or answers to questions\n"
    ++ "- Introductions by moderators or other people\n"
    ++ "- Brief interjections or casual comments\n"
    ++ "Return only the extracted prepared remarks text, without any commentary or explanation.\n"
    ++ "If no substantial prepared content is found (only Q&A or brief comments), return \"NO_PREPARED_REMARKS_FOUND\".\n"
    ++ "Transcript:\n"
    ++ full_text

def OpenrouterProvider.extract_prompt (full_text speaker_name : String) : String :=
  "\n"
    ++ "        From the following transcript, extract the prepared remarks or main presentation content by "
    ++ speaker_name
    ++ ".\n"
    ++ "        Look for content where "
    ++ speaker_name
    ++ " is:\n"
    ++ "        - Giving opening statements or prepared presentations\n"
    ++ "        - Reading from prepared scripts or notes\n"
    ++ "        - Delivering formal remarks or speeches\n"
    ++ "        - Making structured presentations (not answering questions)\n"
    ++ "        IMPORTANT: Be flexible with name matching - look for:\n"
    ++ "        - \""
    ++ speaker_name
    ++ "\" (case-insensitive - match \"john\" with \"John\", \"JOHN\", etc.)\n"
    ++ "        - Variations like first name only, last name only, or titles (Mr./Ms./CEO/etc.)\n"
    ++ "        - Similar sounding names or abbreviated versions\n"
    ++ "        - Any capitalization variations of the name\n"
    ++ "        DO NOT include:\n"
    ++ "        - Q&A responses or answers to questions\n"
    ++ "        - Introductions by moderators or other people\n"
    ++ "        - Brief interjections or casual comments\n"
    ++ "        Return only the extracted prepared remarks text, without any commentary or explanation.\n"
    ++ "        If no substantial prepared content is found (only Q&A or brief comments), return "
    ++ "\"NO_PREPARED_REMARKS_FOUND\".\n"
    ++ "        Transcript:\n"
    ++ "        "
    ++ full_text
    ++ "\n"
    ++ "        "

def OpenAIProvider.not_found_message (speaker_name : String) : String :=
  "No prepared remarks found for '"
    ++ speaker_name
    ++ "' in the document.\n"
    ++ "\n"
    ++ "Troubleshooting tips:\n"
    ++ "• Verify the speaker name matches exactly as it appears in the PDF\n"
    ++ "• Try variations like first name only or last name only\n"
    ++ "• Check if the document contains prepared remarks (not just Q&A)\n"
    ++ "• Ensure the speaker has substantial speaking content in the document"

def ClaudeProvider.not_found_message (speaker_name : String) : String :=
  "No prepared remarks found for '"
    ++ speaker_name
    ++ "' in the document.\n"
    ++ "\n"
    ++ "Troubleshooting tips:\n"
    ++ "• Verify the speaker name matches exactly as it appears in the PDF\n"
    ++ "• Try variations like first name only or last name only\n"
    ++ "• Check if the document contains prepared remarks (not just Q&A)\n"
    ++ "• Ensure the speaker has substantial speaking content in the document"

def GeminiProvider.not_found_message (speaker_name : String) : String :=
  "No prepared remarks found for '"
    ++ speaker_name
    ++ "' in the document."

def OpenrouterProvider.not_found_message (speaker_name : String) : String :=
  "No prepared remarks found for '"
    ++ speaker_name
    ++ "' in the document."

def OpenAIProvider.template_prompt (prepared_remarks speaker_name : String) : String :=
  "\n"
    ++ "            Assuming we are analyzing "
    ++ speaker_name
    ++ "'s speech.\n"
    ++ "            Review only "
    ++ speaker_name
    ++ "'s prepared remarks. \n"
    ++ "            Ignore all other speakers. \n"
    ++ "            Summarize "
    ++ speaker_name
    ++ "'s prepared remarks using clear sections with concise bullet points. \n"
    ++ "            Each bullet point should be a polished, standalone sentence. \n"
    ++ "            The goal is to create a summary that can stand on its own for presentation purposes and be "
    ++ "detailed enough that an LLM could reconstruct the full speech if needed.\n"
    ++ "            Prepared Remarks:\n"
    ++ "            "
    ++ prepared_remarks
    ++ "\n"
    ++ "            "

def ClaudeProvider.template_prompt (prepared_remarks speaker_name : String) : String :=
  "\n"
    ++ "        Assuming we are analyzing "
    ++ speaker_name
    ++ "'s speech.\n"
    ++ "        Review only "
    ++ speaker_name
    ++ "'s prepared remarks. \n"
    ++ "        Ignore all other speakers. \n"
    ++ "        Summarize "
    ++ speaker_name
    ++ "'s prepared remarks using clear sections with concise bullet points. \n"
    ++ "        Each bullet point should be a polished, standalone sentence. \n"
    ++ "        The goal is to create a summary that can stand on its own for presentation purposes and be detailed "
    ++ "enough that an LLM could reconstruct the full speech if needed.\n"
    ++ "        Prepared Remarks:\n"
    ++ "        "
    ++ prepared_remarks
    ++ "\n"
    ++ "        "

def GeminiProvider.template_prompt (prepared_remarks speaker_name : String) : String :=
  "You are a professional speechwriter who creates templates that capture individual speaking styles.\n"
    ++ "\n"
    ++ "Assuming we are analyzing "
    ++ speaker_name
    ++ "'s speech.\n"
    ++ "Review only "
    ++ speaker_name
    ++ "'s prepared remarks. \n"
    ++ "Ignore all other speakers. \n"
    ++ "Summarize "
    ++ speaker_name
    ++ "'s prepared remarks using clear sections with concise bullet points. \n"
    ++ "Each bullet point should be a polished, standalone sentence. \n"
    ++ "The goal is to create a summary that can stand on its own for presentation purposes and be detailed enough "
    ++ "that an LLM could reconstruct the full speech if needed.\n"
    ++ "Prepared Remarks:\n"
    ++ prepared_remarks

def OpenrouterProvider.template_prompt (prepared_remarks speaker_name : String) : String :=
  "\n"
    ++ "        Assuming we are analyzing "
    ++ speaker_name
    ++ "'s speech.\n"
    ++ "        Review only "
    ++ speaker_name
    ++ "'s prepared remarks. \n"
    ++ "        Ignore all other speakers. \n"
    ++ "        Summarize "
    ++ speaker_name
    ++ "'s prepared remarks using clear sections with concise bullet points. \n"
    ++ "        Each bullet point should be a polished, standalone sentence. \n"
    ++ "        The goal is to create a summary that can stand on its own for presentation purposes and be detailed "
    ++ "enough that an LLM could reconstruct the full speech if needed.\n"
    ++ "        Prepared Remarks:\n"
    ++ "        "
    ++ prepared_remarks
    ++ "\n"
    ++ "        "

def OpenAIProvider.custom_speech_prompt (prepared_remarks key_messages speaker_name : String) : String :=
  "\n"
    ++ "            Review only "
    ++ speaker_name
    ++ "'s prepared remarks in the earnings call transcripts provided. \n"
    ++ "            Ignore all other speakers and Q&A. \n"
    ++ "            You are also given a structured set of summary bullet points for "
    ++ speaker_name
    ++ "'s next speech.\n"
    ++ "            Rewrite these points into a full prepared speech in "
    ++ speaker_name
    ++ "'s voice and style. \n"
    ++ "            Maintain a professional, confident, and forward-looking tone consistent with earnings call "
    ++ "presentations. Use natural transitions between sections (Opening & Results, Consumer & Demand Trends, Segment "
    ++ "Highlights, Strategic Initiatives, Product Quality, Closing Remarks). \n"
    ++ "            Expand each bullet point into 1–3 sentences that could be read aloud, keeping the delivery "
    ++ "conversational yet polished. \n"
    ++ "            The final output should read as a cohesive script that "
    ++ speaker_name
    ++ " could deliver verbatim.\n"
    ++ "            Key Messages to Include:\n"
    ++ "            "
    ++ key_messages
    ++ "\n"
    ++ "            Original Prepared Remarks for Style Context:\n"
    ++ "            "
    ++ prepared_remarks
    ++ "\n"
    ++ "            "

def ClaudeProvider.custom_speech_prompt (prepared_remarks key_messages speaker_name : String) : String :=
  "Review only "
    ++ speaker_name
    ++ "'s prepared remarks in the earnings call transcripts provided. \n"
    ++ "        Ignore all other speakers and Q&A. \n"
    ++ "        You are also given a structured set of summary bullet points for "
    ++ speaker_name
    ++ "'s next speech.\n"
    ++ "        Rewrite these points into a full prepared speech in "
    ++ speaker_name
    ++ "'s voice and style. \n"
    ++ "        Maintain a professional, confident, and forward-looking tone consistent with earnings call "
    ++ "presentations. Use natural transitions between sections (Opening & Results, Consumer & Demand Trends, Segment "
    ++ "Highlights, Strategic Initiatives, Product Quality, Closing Remarks). \n"
    ++ "        Expand each bullet point into 1–3 sentences that could be read aloud, keeping the delivery "
    ++ "conversational yet polished. \n"
    ++ "        The final output should read as a cohesive script that "
    ++ speaker_name
    ++ " could deliver verbatim.\n"
    ++ "        Key Messages to Include: "
    ++ key_messages
    ++ "\n"
    ++ "        Original Prepared Remarks for Style Context: "
    ++ (pyTake prepared_remarks 2000)

def GeminiProvider.custom_speech_prompt (prepared_remarks key_messages speaker_name : String) : String :=
  "You are a professional speechwriter who specializes in mimicking the speaking style of "
    ++ speaker_name
    ++ ". Write speeches that sound authentic to their voice, using their prepared remarks as style context.\n"
    ++ "\n"
    ++ "Review only "
    ++ speaker_name
    ++ "'s prepared remarks in the earnings call transcripts provided. \n"
    ++ "Ignore all other speakers and Q&A. \n"
    ++ "You are also given a structured set of summary bullet points for "
    ++ speaker_name
    ++ "'s next speech.\n"
    ++ "Rewrite these points into a full prepared speech in "
    ++ speaker_name
    ++ "'s voice and style. \n"
    ++ "Maintain a professional, confident, and forward-looking tone consistent with earnings call presentations. Use "
    ++ "natural transitions between sections (Opening & Results, Consumer & Demand Trends, Segment Highlights, "
    ++ "Strategic Initiatives, Product Quality, Closing Remarks). \n"
    ++ "Expand each bullet point into 1–3 sentences that could be read aloud, keeping the delivery conversational yet "
    ++ "polished. \n"
    ++ "The final output should read as a cohesive script that "
    ++ speaker_name
    ++ " could deliver verbatim.\n"
    ++ "Key Messages to Include:\n"
    ++ key_messages
    ++ "\n"
    ++ "Original Prepared Remarks for Style Context:\n"
    ++ prepared_remarks

def OpenrouterProvider.custom_speech_prompt (prepared_remarks key_messages speaker_name : String) : String :=
  "\n"
    ++ "        Review only "
    ++ speaker_name
    ++ "'s prepared remarks in the earnings call transcripts provided. \n"
    ++ "        Ignore all other speakers and Q&A. \n"
    ++ "        You are also given a structured set of summary bullet points for "
    ++ speaker_name
    ++ "'s next speech.\n"
    ++ "        Rewrite these points into a full prepared speech in "
    ++ speaker_name
    ++ "'s voice and style. \n"
    ++ "        Maintain a professional, confident, and forward-looking tone consistent with earnings call "
    ++ "presentations. Use natural transitions between sections (Opening & Results, Consumer & Demand Trends, Segment "
    ++ "Highlights, Strategic Initiatives, Product Quality, Closing Remarks). \n"
    ++ "        Expand each bullet point into 1–3 sentences that could be read aloud, keeping the delivery "
    ++ "conversational yet polished. \n"
    ++ "        The final output should read as a cohesive script that "
    ++ speaker_name
    ++ " could deliver verbatim.\n"
    ++ "        Key Messages to Include:\n"
    ++ "        "
    ++ key_messages
    ++ "\n"
    ++ "        Original Prepared Remarks for Style Context:\n"
    ++ "        "
    ++ prepared_remarks
    ++ "\n"
    ++ "        "

def OpenAIProvider.custom_speech_system (speaker_name : String) : String :=
  "You are a professional speechwriter who specializes in mimicking the speaking style of "
    ++ speaker_name
    ++ ". Write speeches that sound authentic to their voice, using their prepared remarks as style context."

def OpenrouterProvider.custom_speech_system (speaker_name : String) : String :=
  "You are a professional speechwriter who specializes in mimicking the speaking style of "
    ++ speaker_name
    ++ ". Write speeches that sound authentic to their voice, using their prepared remarks as style context."
-- Systems messages passed as the "system" role (or inlined, for Gemini) and the
-- sentinel token, transcribed from src/core/llm_providers.py.

/-- Sentinel token the extraction prompt instructs the model to return when no
prepared remarks exist (llm_providers.py line 97 and the checks at 110/241/357/458). -/
def SENTINEL : String := "NO_PREPARED_REMARKS_FOUND"

def OpenAIProvider.extract_system : String :=
  "You are an expert at extracting prepared remarks from business transcripts. "
    ++ "Extract only the formal, prepared content by the specified speaker."

def OpenrouterProvider.extract_system : String :=
  "You are an expert at extracting prepared remarks from business transcripts. "
    ++ "Extract only the formal, prepared content by the specified speaker."

def OpenAIProvider.template_system : String :=
  "You are a professional speechwriter who creates templates that capture individual speaking styles."

def OpenrouterProvider.template_system : String :=
  "You are a professional speechwriter who creates templates that capture individual speaking styles."

/-- One chat message of the OpenAI/Openrouter request envelope
(the Python dict with keys role and content). -/
structure ChatMessage where
  role : String
  content : String

/-- Abstraction of the HTTP layer: a call counter plus the outcome of the next
HTTP POST. `outcome = .ok content` models a 200 response whose vendor envelope
parses down to the generated-text field; `outcome = .error e` models any
exception in the request try-block (network failure, the non-2xx
`API request failed: {status} - {text}` raise, or an envelope parse failure),
with `e` the exception message. -/
structure Network where
  calls : Nat
  outcome : Except String String

/-- One outbound HTTP POST: bumps the call counter and yields the outcome. -/
def Network.post (net : Network) : Network × Except String String :=
  ({ net with calls := net.calls + 1 }, net.outcome)

/-- `OpenAIProvider._make_request` (llm_providers.py 46-75): one POST; any
exception is re-raised as `OpenAI API error: {msg}`. -/
def OpenAIProvider.make_request (net : Network) (_messages : List ChatMessage) :
    Network × Except String String :=
  match Network.post net with
  | (net2, .ok content) => (net2, .ok content)
  | (net2, .error e) => (net2, .error ("OpenAI API error: " ++ e))

/-- `ClaudeProvider._make_request` (llm_providers.py 182-211). -/
def ClaudeProvider.make_request (net : Network) (_prompt : String) :
    Network × Except String String :=
  match Network.post net with
  | (net2, .ok content) => (net2, .ok content)
  | (net2, .error e) => (net2, .error ("Claude API error: " ++ e))

/-- `GeminiProvider._make_request` (llm_providers.py 291-330); the
missing-candidates raise is part of the abstracted envelope failures. -/
def GeminiProvider.make_request (net : Network) (_prompt : String) :
    Network × Except String String :=
  match Network.post net with
  | (net2, .ok content) => (net2, .ok content)
  | (net2, .error e) => (net2, .error ("Gemini API error: " ++ e))

/-- `OpenrouterProvider._make_request` (llm_providers.py 404-428). -/
def OpenrouterProvider.make_request (net : Network) (_messages : List ChatMessage) :
    Network × Except String String :=
  match Network.post net with
  | (net2, .ok content) => (net2, .ok content)
  | (net2, .error e) => (net2, .error ("Openrouter API error: " ++ e))

/-- `OpenAIProvider.extract_speaker_prepared_remarks` (llm_providers.py 77-115):
build prompt and messages, one request, sentinel check, strip; the surrounding
try/except re-raises every failure as `Failed to extract speaker content: {msg}`. -/
def OpenAIProvider.extract_speaker_prepared_remarks (net : Network)
    (full_text speaker_name : String) : Network × Except String String :=
  let prompt := OpenAIProvider.extract_prompt full_text speaker_name
  let messages : List ChatMessage :=
    [⟨"system", OpenAIProvider.extract_system⟩, ⟨"user", prompt⟩]
  match OpenAIProvider.make_request net messages with
  | (net2, .ok response) =>
      if strContainsSub response SENTINEL then
        (net2, .error ("Failed to extract speaker content: "
          ++ OpenAIProvider.not_found_message speaker_name))
      else
        (net2, .ok (pyStrip response))
  | (net2, .error e) =>
      (net2, .error ("Failed to extract speaker content: " ++ e))

/-- `ClaudeProvider.extract_speaker_prepared_remarks` (llm_providers.py 213-246). -/
def ClaudeProvider.extract_speaker_prepared_remarks (net : Network)
    (full_text speaker_name : String) : Network × Except String String :=
  let prompt := ClaudeProvider.extract_prompt full_text speaker_name
  match ClaudeProvider.make_request net prompt with
  | (net2, .ok response) =>
      if strContainsSub response SENTINEL then
        (net2, .error ("Failed to extract speaker content: "
          ++ ClaudeProvider.not_found_message speaker_name))
      else
        (net2, .ok (pyStrip response))
  | (net2, .error e) =>
      (net2, .error ("Failed to extract speaker content: " ++ e))

/-- `GeminiProvider.extract_speaker_prepared_remarks` (llm_providers.py 332-359):
no try/except, so request failures propagate unchanged. -/
def GeminiProvider.extract_speaker_prepared_remarks (net : Network)
    (full_text speaker_name : String) : Network × Except String String :=
  let prompt := GeminiProvider.extract_prompt full_text speaker_name
  match GeminiProvider.make_request net prompt with
  | (net2, .ok response) =>
      if strContainsSub response SENTINEL then
        (net2, .error (GeminiProvider.not_found_message speaker_name))
      else
        (net2, .ok (pyStrip response))
  | (net2, .error e) => (net2, .error e)

/-- `OpenrouterProvider.extract_speaker_prepared_remarks` (llm_providers.py 430-460):
no try/except, so request failures propagate unchanged. -/
def OpenrouterProvider.extract_speaker_prepared_remarks (net : Network)
    (full_text speaker_name : String) : Network × Except String String :=
  let prompt := OpenrouterProvider.extract_prompt full_text speaker_name
  let messages : List ChatMessage :=
    [⟨"system", OpenrouterProvider.extract_system⟩, ⟨"user", prompt⟩]
  match OpenrouterProvider.make_request net messages with
  | (net2, .ok response) =>
      if strContainsSub response SENTINEL then
        (net2, .error (OpenrouterProvider.not_found_message speaker_name))
      else
        (net2, .ok (pyStrip response))
  | (net2, .error e) => (net2, .error e)

/-- `OpenAIProvider.generate_template` (llm_providers.py 117-141): failures are
re-raised as `Failed to generate template: {msg}`. -/
def OpenAIProvider.generate_template (net : Network)
    (prepared_remarks speaker_name : String) : Network × Except String String :=
  let prompt := OpenAIProvider.template_prompt prepared_remarks speaker_name
  let messages : List ChatMessage :=
    [⟨"system", OpenAIProvider.template_system⟩, ⟨"user", prompt⟩]
  match OpenAIProvider.make_request net messages with
  | (net2, .ok response) => (net2, .ok response)
  | (net2, .error e) => (net2, .error ("Failed to generate template: " ++ e))

/-- `ClaudeProvider.generate_template` (llm_providers.py 248-263): no try/except. -/
def ClaudeProvider.generate_template (net : Network)
    (prepared_remarks speaker_name : String) : Network × Except String String :=
  let prompt := ClaudeProvider.template_prompt prepared_remarks speaker_name
  ClaudeProvider.make_request net prompt

/-- `GeminiProvider.generate_template` (llm_providers.py 361-374). -/
def GeminiProvider.generate_template (net : Network)
    (prepared_remarks speaker_name : String) : Network × Except String String :=
  let prompt := GeminiProvider.template_prompt prepared_remarks speaker_name
  GeminiProvider.make_request net prompt

/-- `OpenrouterProvider.generate_template` (llm_providers.py 462-478). -/
def OpenrouterProvider.generate_template (net : Network)
    (prepared_remarks speaker_name : String) : Network × Except String String :=
  let prompt := OpenrouterProvider.template_prompt prepared_remarks speaker_name
  let messages : List ChatMessage :=
    [⟨"system", OpenrouterProvider.template_system⟩, ⟨"user", prompt⟩]
  OpenrouterProvider.make_request net messages

/-- `OpenAIProvider.generate_custom_speech` (llm_providers.py 143-171): returns
the pair (speech, prompt); failures re-raised as
`Failed to generate custom speech: {msg}`. -/
def OpenAIProvider.generate_custom_speech (net : Network)
    (prepared_remarks key_messages speaker_name : String) :
    Network × Except String (String × String) :=
  let prompt := OpenAIProvider.custom_speech_prompt prepared_remarks key_messages speaker_name
  let messages : List ChatMessage :=
    [⟨"system", OpenAIProvider.custom_speech_system speaker_name⟩, ⟨"user", prompt⟩]
  match OpenAIProvider.make_request net messages with
  | (net2, .ok response) => (net2, .ok (response, prompt))
  | (net2, .error e) => (net2, .error ("Failed to generate custom speech: " ++ e))

/-- `ClaudeProvider.generate_custom_speech` (llm_providers.py 265-280): the style
context is truncated to the first 2000 characters inside the prompt; no try/except. -/
def ClaudeProvider.generate_custom_speech (net : Network)
    (prepared_remarks key_messages speaker_name : String) :
    Network × Except String (String × String) :=
  let prompt := ClaudeProvider.custom_speech_prompt prepared_remarks key_messages speaker_name
  match ClaudeProvider.make_request net prompt with
  | (net2, .ok response) => (net2, .ok (response, prompt))
  | (net2, .error e) => (net2, .error e)

/-- `GeminiProvider.generate_custom_speech` (llm_providers.py 376-393). -/
def GeminiProvider.generate_custom_speech (net : Network)
    (prepared_remarks key_messages speaker_name : String) :
    Network × Except String (String × String) :=
  let prompt := GeminiProvider.custom_speech_prompt prepared_remarks key_messages speaker_name
  match GeminiProvider.make_request net prompt with
  | (net2, .ok response) => (net2, .ok (response, prompt))
  | (net2, .error e) => (net2, .error e)

/-- `OpenrouterProvider.generate_custom_speech` (llm_providers.py 480-500). -/
def OpenrouterProvider.generate_custom_speech (net : Network)
    (prepared_remarks key_messages speaker_name : String) :
    Network × Except String (String × String) :=
  let prompt := OpenrouterProvider.custom_speech_prompt prepared_remarks key_messages speaker_name
  let messages : List ChatMessage :=
    [⟨"system", OpenrouterProvider.custom_speech_system speaker_name⟩, ⟨"user", prompt⟩]
  match OpenrouterProvider.make_request net messages with
  | (net2, .ok response) => (net2, .ok (response, prompt))
  | (net2, .error e) => (net2, .error e)

/-- The four provider variants. -/
inductive ProviderKind where
  | openai
  | claude
  | gemini
  | openrouter
deriving DecidableEq

/-- A provider adapter instance: its variant and the API key it was built with
(the key only feeds the authentication headers, which live inside the abstracted
HTTP layer). -/
structure Provider where
  kind : ProviderKind
  api_key : String

/-- Dispatch of `extract_speaker_prepared_remarks` to the adapter variant. -/
def Provider.extract_speaker_prepared_remarks (p : Provider) (net : Network)
    (full_text speaker_name : String) : Network × Except String String :=
  match p.kind with
  | .openai => OpenAIProvider.extract_speaker_prepared_remarks net full_text speaker_name
  | .claude => ClaudeProvider.extract_speaker_prepared_remarks net full_text speaker_name
  | .gemini => GeminiProvider.extract_speaker_prepared_remarks net full_text speaker_name
  | .openrouter => OpenrouterProvider.extract_speaker_prepared_remarks net full_text speaker_name

/-- Dispatch of `generate_template` to the adapter variant. -/
def Provider.generate_template (p : Provider) (net : Network)
    (prepared_remarks speaker_name : String) : Network × Except String String :=
  match p.kind with
  | .openai => OpenAIProvider.generate_template net prepared_remarks speaker_name
  | .claude => ClaudeProvider.generate_template net prepared_remarks speaker_name
  | .gemini => GeminiProvider.generate_template net prepared_remarks speaker_name
  | .openrouter => OpenrouterProvider.generate_template net prepared_remarks speaker_name

/-- Dispatch of `generate_custom_speech` to the adapter variant. -/
def Provider.generate_custom_speech (p : Provider) (net : Network)
    (prepared_remarks key_messages speaker_name : String) :
    Network × Except String (String × String) :=
  match p.kind with
  | .openai => OpenAIProvider.generate_custom_speech net prepared_remarks key_messages speaker_name
  | .claude => ClaudeProvider.generate_custom_speech net prepared_remarks key_messages speaker_name
  | .gemini => GeminiProvider.generate_custom_speech net prepared_remarks key_messages speaker_name
  | .openrouter => OpenrouterProvider.generate_custom_speech net prepared_remarks key_messages speaker_name

/-- `LLMManager` state (llm_providers.py 502-507): the insertion-ordered provider
dict and the current-provider name (None when unset). -/
structure LLMManager where
  providers : List (String × Provider)
  current_provider : Option String

/-- The provider dict built by `LLMManager._initialize_providers`
(llm_providers.py 510-538) from the environment: one entry per provider whose
API-key variable is set and non-empty (Python truthiness), in source order. -/
def envProviderList (env : String → Option String) : List (String × Provider) :=
  (match env "OPENAI_API_KEY" with
    | some k => if k = "" then [] else [("openai", ⟨ProviderKind.openai, k⟩)]
    | none => [])
  ++ (match env "CLAUDE_API_KEY" with
    | some k => if k = "" then [] else [("claude", ⟨ProviderKind.claude, k⟩)]
    | none => [])
  ++ (match env "GEMINI_API_KEY" with
    | some k => if k = "" then [] else [("gemini", ⟨ProviderKind.gemini, k⟩)]
    | none => [])
  ++ (match env "OPENROUTER_API_KEY" with
    | some k => if k = "" then [] else [("openrouter", ⟨ProviderKind.openrouter, k⟩)]
    | none => [])

/-- `LLMManager.__init__` / `_initialize_providers` (llm_providers.py 505-538):
register providers with credentials and default the current provider to the
first registered key, or leave it unset when none is registered. -/
def LLMManager.init (env : String → Option String) : LLMManager :=
  let ps := envProviderList env
  { providers := ps
    current_provider :=
      match ps with
      | [] => none
      | (k, _) :: _ => some k }

/-- `LLMManager.get_available_providers` (llm_providers.py 540-542). -/
def LLMManager.get_available_providers (m : LLMManager) : List String :=
  m.providers.map Prod.fst

/-- `LLMManager.set_provider` (llm_providers.py 544-549): switch only when the
name is a registered key; report success as the returned Bool. -/
def LLMManager.set_provider (m : LLMManager) (provider_name : String) :
    LLMManager × Bool :=
  if (m.providers.lookup provider_name).isSome then
    ({ m with current_provider := some provider_name }, true)
  else
    (m, false)

/-- `LLMManager.get_current_provider` (llm_providers.py 551-555): the instance
for the current name, if the name is truthy and registered. -/
def LLMManager.get_current_provider (m : LLMManager) : Option Provider :=
  match m.current_provider with
  | none => none
  | some name => if name = "" then none else m.providers.lookup name

/-- `LLMManager.extract_speaker_prepared_remarks` (llm_providers.py 557-563):
raise `No LLM provider available` when no current provider, else dispatch. -/
def LLMManager.extract_speaker_prepared_remarks (m : LLMManager) (net : Network)
    (full_text speaker_name : String) : Network × Except String String :=
  match m.get_current_provider with
  | none => (net, .error "No LLM provider available")
  | some p => p.extract_speaker_prepared_remarks net full_text speaker_name

/-- `LLMManager.generate_template` (llm_providers.py 565-571). -/
def LLMManager.generate_template (m : LLMManager) (net : Network)
    (prepared_remarks speaker_name : String) : Network × Except String String :=
  match m.get_current_provider with
  | none => (net, .error "No LLM provider available")
  | some p => p.generate_template net prepared_remarks speaker_name

/-- `LLMManager.generate_custom_speech` (llm_providers.py 573-579). -/
def LLMManager.generate_custom_speech (m : LLMManager) (net : Network)
    (prepared_remarks key_messages speaker_name : String) :
    Network × Except String (String × String) :=
  match m.get_current_provider with
  | none => (net, .error "No LLM provider available")
  | some p => p.generate_custom_speech net prepared_remarks key_messages speaker_name

/-- The dict returned by `PDFProcessor.extract_speaker_content_via_llm`
(pdf_processor.py 172-191); `error` is `some msg` exactly in the failure dict. -/
structure ExtractionResult where
  speaker_name : String
  content : String
  extraction_method : String
  content_length : Nat
  extraction_success : Bool
  content_type : String
  error : Option String

/-- The failure dict of `extract_speaker_content_via_llm` (pdf_processor.py 183-191). -/
def failureResult (speaker_name msg : String) : ExtractionResult :=
  { speaker_name := speaker_name
    content := ""
    extraction_method := "failed"
    content_length := 0
    extraction_success := false
    content_type := "prepared_remarks"
    error := some msg }

/-- The success dict of `extract_speaker_content_via_llm` (pdf_processor.py 172-179). -/
def successResult (speaker_name content : String) : ExtractionResult :=
  { speaker_name := speaker_name
    content := content
    extraction_method := "llm"
    content_length := content.length
    extraction_success := true
    content_type := "prepared_remarks"
    error := none }

/-- `PDFProcessor` state (pdf_processor.py 13-18): the optional LLM manager. -/
structure PDFProcessor where
  llm_manager : Option LLMManager

/-- `PDFProcessor.extract_speaker_content_via_llm` (pdf_processor.py 132-191):
validate inputs, call the manager, validate the response (non-empty after strip,
at least 50 characters), and catch every raised exception into the failure dict. -/
def PDFProcessor.extract_speaker_content_via_llm (proc : PDFProcessor) (net : Network)
    (full_text speaker_name : String) : Network × ExtractionResult :=
  match proc.llm_manager with
  | none => (net, failureResult speaker_name "LLM manager not available for speaker extraction")
  | some mgr =>
    if pyStrip full_text = "" then
      (net, failureResult speaker_name "No text content provided for extraction")
    else if pyStrip speaker_name = "" then
      (net, failureResult speaker_name "No speaker name provided. Please enter a speaker name.")
    else
      let sn := pyStrip speaker_name
      match mgr.extract_speaker_prepared_remarks net full_text sn with
      | (net2, .error e) => (net2, failureResult sn e)
      | (net2, .ok extracted_content) =>
        if pyStrip extracted_content = "" then
          (net2, failureResult sn
            ("LLM did not find any prepared remarks for speaker '" ++ sn ++ "' in the document"))
        else
          let ec := pyStrip extracted_content
          if ec.length < 50 then
            (net2, failureResult sn
              ("LLM found insufficient content for speaker '" ++ sn ++ "' (less than 50 characters)"))
          else
            (net2, successResult sn ec)

/-- The web application state relevant to provider switching (web_app.py):
the global `llm_manager` plus the artifact slots of `processing_state`. -/
structure AppState where
  manager : LLMManager
  speaker_content : Option String
  generated_template : Option String
  generated_speech : Option String
  generated_prompt : Option String

/-- The `/set_provider` route of web_app.py (lines 156-174): reject names not in
the available list, otherwise call `LLMManager.set_provider`; only the manager
global is touched. -/
def AppState.set_provider_route (st : AppState) (provider : String) : AppState × Bool :=
  if (st.manager.get_available_providers).contains provider then
    match st.manager.set_provider provider with
    | (m, ok) => ({ st with manager := m }, ok)
  else
    (st, false)
-- Claim theorems.

/-- Sample environment with only the Gemini credential set; used to build
concrete manager states in witnesses. -/
def envGemini : String → Option String :=
  fun k => if k = "GEMINI_API_KEY" then some "gk" else none

/-- Manager states reachable from construction by any sequence of
`set_provider` calls (the only state-mutating operations; the three generation
operations and all getters leave the state untouched). -/
inductive ReachableManager : LLMManager → Prop
  | construct (env : String → Option String) : ReachableManager (LLMManager.init env)
  | switch (m : LLMManager) (name : String) :
      ReachableManager m → ReachableManager (m.set_provider name).1
/-- The prepared-remarks style context each variant embeds in its custom-speech
prompt: the Claude variant truncates to the first 2000 characters
(llm_providers.py line 275), the other three use the full text. -/
def styleContext (k : ProviderKind) (prepared_remarks : String) : String :=
  match k with
  | .claude => pyTake prepared_remarks 2000
  | _ => prepared_remarks
-- Claim C8: extraction prompt parity across the four provider variants.

/-- The name-matching instruction header of the extraction prompt, as its
whitespace-separated words (spec: name-matching instructions). -/
def nameMatchingInstrTokens : List String :=
  ["IMPORTANT:", "Be", "flexible", "with", "name", "matching", "-", "look", "for:"]

/-- The exclusion instructions of the extraction prompt, as whitespace-separated
words (spec: exclusion instructions). -/
def exclusionInstrTokens : List String :=
  ["DO", "NOT", "include:", "-", "Q&A", "responses", "or", "answers", "to", "questions",
   "-", "Introductions", "by", "moderators", "or", "other", "people",
   "-", "Brief", "interjections", "or", "casual", "comments"]
theorem wtokAux_split (c : Char) (hc : c.isWhitespace = true) (xs : List Char) :
    ∀ (acc ys : List Char),
      wtokAux (xs ++ c :: ys) acc = wtokAux xs acc ++ wtokAux ys [] := by
  induction xs with
  | nil => intro acc ys; simp [wtokAux, hc]
  | cons a xs ih =>
      intro acc ys
      by_cases h : a.isWhitespace <;> simp [wtokAux, h, ih, List.append_assoc]

/-- Splitting a tokenization at a whitespace character. -/
theorem wtokens_split (xs : List Char) (c : Char) (hc : c.isWhitespace = true) (ys : List Char) :
    wtokens (xs ++ c :: ys) = wtokens xs ++ wtokens ys :=
  wtokAux_split c hc xs [] ys

theorem cons_append_cons (a b : Char) (n Y : List Char) :
    a :: (n ++ b :: Y) = ((a :: n) ++ [b]) ++ Y := by
  simp

/-- Two strings with the same character data are equal. -/
theorem str_ext (s t : String) (h : s.data = t.data) : s = t := by
  cases s; cases t; exact congrArg String.mk h

theorem strContainsSub_iff (hay needle : String) :
    strContainsSub hay needle = true ↔ IsSubstrOf needle hay := by
  unfold strContainsSub
  rw [decide_eq_true_iff]
  constructor
  · rintro ⟨s, t, h⟩
    exact ⟨⟨s⟩, ⟨t⟩, (str_ext _ _ (by simp [String.data_append, ← h])).symm⟩
  · rintro ⟨pre, post, h⟩
    exact ⟨pre.data, post.data, by rw [h]; simp [String.data_append]⟩

theorem pyTake_pyTake (s : String) (n : Nat) : pyTake (pyTake s n) n = pyTake s n := by
  simp [pyTake, List.take_take]

/-- A lookup hit means the key occurs among the mapped-out keys. -/
theorem lookup_mem_keys {β : Type} (l : List (String × β)) (k : String) (p : β)
    (h : l.lookup k = some p) : (l.map Prod.fst).contains k = true := by
  induction l with
  | nil => simp [List.lookup] at h
  | cons a l ih =>
      by_cases hk : k == a.1 <;> simp_all [List.lookup]

/-- Strings built as `p ++ (la ++ ra)` and `p ++ (lb ++ rb)` differ whenever the
leading characters of `la` and `lb` differ. Used to separate the not-found
failure message from every transport failure message. -/
theorem append_ne_append (p la ra lb rb : String) (c₁ c₂ : Char)
    (h₁ : la.data.head? = some c₁) (h₂ : lb.data.head? = some c₂) (hne : c₁ ≠ c₂) :
    p ++ (la ++ ra) ≠ p ++ (lb ++ rb) := by
  intro h
  have hd := congrArg String.data h
  simp only [String.data_append] at hd
  have hd' := List.append_cancel_left hd
  cases ha : la.data with
  | nil => rw [ha] at h₁; simp at h₁
  | cons x xs =>
      cases hb : lb.data with
      | nil => rw [hb] at h₂; simp at h₂
      | cons y ys =>
          rw [ha] at h₁
          rw [hb] at h₂
          simp only [List.head?_cons, Option.some.injEq] at h₁ h₂
          rw [ha, hb] at hd'
          simp only [List.cons_append, List.cons.injEq] at hd'
          exact hne (by rw [← h₁, ← h₂]; exact hd'.1)
theorem openai_extract_tok_0 : ∀ r : List Char,
    wtokens (("\n" : String).data ++ r) = [] ++ wtokens r :=
  fun _ => rfl

theorem openai_extract_tok_1 : ∀ r : List Char,
    wtokens (("            From the following transcript, extract the prepared remarks or main presentation content by " : String).data ++ r) = ["From", "the", "following", "transcript,", "extract", "the", "prepared", "remarks", "or", "main", "presentation", "content", "by"] ++ wtokens r :=
  fun _ => rfl

theorem openai_extract_tok_2 (nm : String) : ∀ r : List Char,
    wtokens (nm.data ++ ((".\n" : String).data ++ r)) =
      wtokens (nm.data ++ ['.']) ++ ([] ++ wtokens r) := by
  intro r
  rw [show (".\n" : String).data ++ r =
      '.' :: '\n' :: (("" : String).data ++ r) from rfl]
  rw [List.append_cons nm.data '.' ('\n' :: (("" : String).data ++ r))]
  rw [wtokens_split (nm.data ++ ['.']) '\n' rfl]
  rfl

theorem openai_extract_tok_3 : ∀ r : List Char,
    wtokens (("            Look for content where " : String).data ++ r) = ["Look", "for", "content", "where"] ++ wtokens r :=
  fun _ => rfl

theorem openai_extract_tok_4 (nm : String) : ∀ r : List Char,
    wtokens (nm.data ++ ((" is:\n" : String).data ++ r)) =
      wtokens nm.data ++ (["is:"] ++ wtokens r) := by
  intro r
  rw [show (" is:\n" : String).data ++ r =
      ' ' :: (("is:\n" : String).data ++ r) from rfl]
  rw [wtokens_split nm.data ' ' rfl]
  rfl

theorem openai_extract_tok_5 : ∀ r : List Char,
    wtokens (("            - Giving opening statements or prepared presentations\n" : String).data ++ r) = ["-", "Giving", "opening", "statements", "or", "prepared", "presentations"] ++ wtokens r :=
  fun _ => rfl

theorem openai_extract_tok_6 : ∀ r : List Char,
    wtokens (("            - Reading from prepared scripts or notes\n" : String).data ++ r) = ["-", "Reading", "from", "prepared", "scripts", "or", "notes"] ++ wtokens r :=
  fun _ => rfl

theorem openai_extract_tok_7 : ∀ r : List Char,
    wtokens (("            - Delivering formal remarks or speeches\n" : String).data ++ r) = ["-", "Delivering", "formal", "remarks", "or", "speeches"] ++ wtokens r :=
  fun _ => rfl

theorem openai_extract_tok_8 : ∀ r : List Char,
    wtokens (("            - Making structured presentations (not answering questions)\n" : String).data ++ r) = ["-", "Making", "structured", "presentations", "(not", "answering", "questions)"] ++ wtokens r :=
  fun _ => rfl

theorem openai_extract_tok_9 : ∀ r : List Char,
    wtokens (("            IMPORTANT: Be flexible with name matching - look for:\n" : String).data ++ r) = ["IMPORTANT:", "Be", "flexible", "with", "name", "matching", "-", "look", "for:"] ++ wtokens r :=
  fun _ => rfl

theorem openai_extract_tok_10 (nm : String) : ∀ r : List Char,
    wtokens (("            - \"" : String).data ++ (nm.data ++ (("\" (case-insensitive - match \"john\" with \"John\", \"JOHN\", etc.)\n" : String).data ++ r))) =
      ["-"] ++ (wtokens (('"' :: nm.data) ++ ['"']) ++ (["(case-insensitive", "-", "match", "\"john\"", "with", "\"John\",", "\"JOHN\",", "etc.)"] ++ wtokens r)) := by
  intro r
  rw [show ∀ X : List Char, ("            - \"" : String).data ++ X =
      ("            -" : String).data ++ ' ' :: '"' :: X from fun X => rfl]
  rw [wtokens_split ("            -" : String).data ' ' rfl]
  rw [show ("\" (case-insensitive - match \"john\" with \"John\", \"JOHN\", etc.)\n" : String).data ++ r =
      '"' :: ' ' :: (("(case-insensitive - match \"john\" with \"John\", \"JOHN\", etc.)\n" : String).data ++ r) from rfl]
  rw [cons_append_cons '"' '"' nm.data (' ' :: (("(case-insensitive - match \"john\" with \"John\", \"JOHN\", etc.)\n" : String).data ++ r))]
  rw [wtokens_split (('"' :: nm.data) ++ ['"']) ' ' rfl]
  rfl

theorem openai_extract_tok_11 : ∀ r : List Char,
    wtokens (("            - Variations like first name only, last name only, or titles (Mr./Ms./CEO/etc.)\n" : String).data ++ r) = ["-", "Variations", "like", "first", "name", "only,", "last", "name", "only,", "or", "titles", "(Mr./Ms./CEO/etc.)"] ++ wtokens r :=
  fun _ => rfl

theorem openai_extract_tok_12 : ∀ r : List Char,
    wtokens (("            - Similar sounding names or abbreviated versions\n" : String).data ++ r) = ["-", "Similar", "sounding", "names", "or", "abbreviated", "versions"] ++ wtokens r :=
  fun _ => rfl

theorem openai_extract_tok_13 : ∀ r : List Char,
    wtokens (("            - Any capitalization variations of the name\n" : String).data ++ r) = ["-", "Any", "capitalization", "variations", "of", "the", "name"] ++ wtokens r :=
  fun _ => rfl

theorem openai_extract_tok_14 : ∀ r : List Char,
    wtokens (("            DO NOT include:\n" : String).data ++ r) = ["DO", "NOT", "include:"] ++ wtokens r :=
  fun _ => rfl

theorem openai_extract_tok_15 : ∀ r : List Char,
    wtokens (("            - Q&A responses or answers to questions\n" : String).data ++ r) = ["-", "Q&A", "responses", "or", "answers", "to", "questions"] ++ wtokens r :=
  fun _ => rfl

theorem openai_extract_tok_16 : ∀ r : List Char,
    wtokens (("            - Introductions by moderators or other people\n" : String).data ++ r) = ["-", "Introductions", "by", "moderators", "or", "other", "people"] ++ wtokens r :=
  fun _ => rfl

theorem openai_extract_tok_17 : ∀ r : List Char,
    wtokens (("            - Brief interjections or casual comments\n" : String).data ++ r) = ["-", "Brief", "interjections", "or", "casual", "comments"] ++ wtokens r :=
  fun _ => rfl

theorem openai_extract_tok_18 : ∀ r : List Char,
    wtokens (("            Return only the extracted prepared remarks text, without any commentary or explanation.\n" : String).data ++ r) = ["Return", "only", "the", "extracted", "prepared", "remarks", "text,", "without", "any", "commentary", "or", "explanation."] ++ wtokens r :=
  fun _ => rfl

theorem openai_extract_tok_19 : ∀ r : List Char,
    wtokens (("            If no substantial prepared content is found (only Q&A or brief comments), return " : String).data ++ r) = ["If", "no", "substantial", "prepared", "content", "is", "found", "(only", "Q&A", "or", "brief", "comments),", "return"] ++ wtokens r :=
  fun _ => rfl

theorem openai_extract_tok_20 : ∀ r : List Char,
    wtokens (("\"NO_PREPARED_REMARKS_FOUND\".\n" : String).data ++ r) = ["\"NO_PREPARED_REMARKS_FOUND\"."] ++ wtokens r :=
  fun _ => rfl

theorem openai_extract_tok_21 : ∀ r : List Char,
    wtokens (("            Transcript:\n" : String).data ++ r) = ["Transcript:"] ++ wtokens r :=
  fun _ => rfl

theorem openai_extract_tok_22 : ∀ r : List Char,
    wtokens (("            " : String).data ++ r) = [] ++ wtokens r :=
  fun _ => rfl

theorem openai_extract_tok_23 (nm : String) :
    wtokens (nm.data ++ (("\n" : String).data ++ ("            " : String).data)) = wtokens nm.data := by
  rw [show ("\n" : String).data ++ ("            " : String).data =
      '\n' :: (("" : String).data ++ ("            " : String).data) from rfl]
  rw [wtokens_split nm.data '\n' rfl]
  rw [show wtokens (("" : String).data ++ ("            " : String).data) = ([] : List String) from rfl]
  rw [List.append_nil]

theorem openai_extract_prompt_tokens (full_text speaker_name : String) :
    wtokensS (OpenAIProvider.extract_prompt full_text speaker_name) =
      []
      ++ ["From", "the", "following", "transcript,", "extract", "the", "prepared", "remarks", "or", "main", "presentation", "content", "by"]
      ++ wtokens (speaker_name.data ++ ['.'])
      ++ []
      ++ ["Look", "for", "content", "where"]
      ++ wtokens speaker_name.data
      ++ ["is:"]
      ++ ["-", "Giving", "opening", "statements", "or", "prepared", "presentations"]
      ++ ["-", "Reading", "from", "prepared", "scripts", "or", "notes"]
      ++ ["-", "Delivering", "formal", "remarks", "or", "speeches"]
      ++ ["-", "Making", "structured", "presentations", "(not", "answering", "questions)"]
      ++ ["IMPORTANT:", "Be", "flexible", "with", "name", "matching", "-", "look", "for:"]
      ++ ["-"]
      ++ wtokens (('"' :: speaker_name.data) ++ ['"'])
      ++ ["(case-insensitive", "-", "match", "\"john\"", "with", "\"John\",", "\"JOHN\",", "etc.)"]
      ++ ["-", "Variations", "like", "first", "name", "only,", "last", "name", "only,", "or", "titles", "(Mr./Ms./CEO/etc.)"]
      ++ ["-", "Similar", "sounding", "names", "or", "abbreviated", "versions"]
      ++ ["-", "Any", "capitalization", "variations", "of", "the", "name"]
      ++ ["DO", "NOT", "include:"]
      ++ ["-", "Q&A", "responses", "or", "answers", "to", "questions"]
      ++ ["-", "Introductions", "by", "moderators", "or", "other", "people"]
      ++ ["-", "Brief", "interjections", "or", "casual", "comments"]
      ++ ["Return", "only", "the", "extracted", "prepared", "remarks", "text,", "without", "any", "commentary", "or", "explanation."]
      ++ ["If", "no", "substantial", "prepared", "content", "is", "found", "(only", "Q&A", "or", "brief", "comments),", "return"]
      ++ ["\"NO_PREPARED_REMARKS_FOUND\"."]
      ++ ["Transcript:"]
      ++ []
      ++ wtokens full_text.data := by
  simp only [OpenAIProvider.extract_prompt, wtokensS, String.data_append, List.append_assoc]
  rw [openai_extract_tok_0]
  rw [openai_extract_tok_1]
  rw [openai_extract_tok_2 speaker_name]
  rw [openai_extract_tok_3]
  rw [openai_extract_tok_4 speaker_name]
  rw [openai_extract_tok_5]
  rw [openai_extract_tok_6]
  rw [openai_extract_tok_7]
  rw [openai_extract_tok_8]
  rw [openai_extract_tok_9]
  rw [openai_extract_tok_10 speaker_name]
  rw [openai_extract_tok_11]
  rw [openai_extract_tok_12]
  rw [openai_extract_tok_13]
  rw [openai_extract_tok_14]
  rw [openai_extract_tok_15]
  rw [openai_extract_tok_16]
  rw [openai_extract_tok_17]
  rw [openai_extract_tok_18]
  rw [openai_extract_tok_19]
  rw [openai_extract_tok_20]
  rw [openai_extract_tok_21]
  rw [openai_extract_tok_22]
  rw [openai_extract_tok_23 full_text]



theorem gemini_extract_tok_0 : ∀ r : List Char,
    wtokens (("You are an expert at extracting prepared remarks from business transcripts. Extract only the formal, prepared " : String).data ++ r) = ["You", "are", "an", "expert", "at", "extracting", "prepared", "remarks", "from", "business", "transcripts.", "Extract", "only", "the", "formal,", "prepared"] ++ wtokens r :=
  fun _ => rfl

theorem gemini_extract_tok_1 : ∀ r : List Char,
    wtokens (("content by the specified speaker.\n" : String).data ++ r) = ["content", "by", "the", "specified", "speaker."] ++ wtokens r :=
  fun _ => rfl

theorem gemini_extract_tok_2 : ∀ r : List Char,
    wtokens (("\n" : String).data ++ r) = [] ++ wtokens r :=
  fun _ => rfl

theorem gemini_extract_tok_3 : ∀ r : List Char,
    wtokens (("From the following transcript, extract the prepared remarks or main presentation content by " : String).data ++ r) = ["From", "the", "following", "transcript,", "extract", "the", "prepared", "remarks", "or", "main", "presentation", "content", "by"] ++ wtokens r :=
  fun _ => rfl

theorem gemini_extract_tok_4 (nm : String) : ∀ r : List Char,
    wtokens (nm.data ++ ((".\n" : String).data ++ r)) =
      wtokens (nm.data ++ ['.']) ++ ([] ++ wtokens r) := by
  intro r
  rw [show (".\n" : String).data ++ r =
      '.' :: '\n' :: (("" : String).data ++ r) from rfl]
  rw [List.append_cons nm.data '.' ('\n' :: (("" : String).data ++ r))]
  rw [wtokens_split (nm.data ++ ['.']) '\n' rfl]
  rfl

theorem gemini_extract_tok_5 : ∀ r : List Char,
    wtokens (("Look for content where " : String).data ++ r) = ["Look", "for", "content", "where"] ++ wtokens r :=
  fun _ => rfl

theorem gemini_extract_tok_6 (nm : String) : ∀ r : List Char,
    wtokens (nm.data ++ ((" is:\n" : String).data ++ r)) =
      wtokens nm.data ++ (["is:"] ++ wtokens r) := by
  intro r
  rw [show (" is:\n" : String).data ++ r =
      ' ' :: (("is:\n" : String).data ++ r) from rfl]
  rw [wtokens_split nm.data ' ' rfl]
  rfl

theorem gemini_extract_tok_7 : ∀ r : List Char,
    wtokens (("- Giving opening statements or prepared presentations\n" : String).data ++ r) = ["-", "Giving", "opening", "statements", "or", "prepared", "presentations"] ++ wtokens r :=
  fun _ => rfl

theorem gemini_extract_tok_8 : ∀ r : List Char,
    wtokens (("- Reading from prepared scripts or notes\n" : String).data ++ r) = ["-", "Reading", "from", "prepared", "scripts", "or", "notes"] ++ wtokens r :=
  fun _ => rfl

theorem gemini_extract_tok_9 : ∀ r : List Char,
    wtokens (("- Delivering formal remarks or speeches\n" : String).data ++ r) = ["-", "Delivering", "formal", "remarks", "or", "speeches"] ++ wtokens r :=
  fun _ => rfl

theorem gemini_extract_tok_10 : ∀ r : List Char,
    wtokens (("- Making structured presentations (not answering questions)\n" : String).data ++ r) = ["-", "Making", "structured", "presentations", "(not", "answering", "questions)"] ++ wtokens r :=
  fun _ => rfl

theorem gemini_extract_tok_11 : ∀ r : List Char,
    wtokens (("IMPORTANT: Be flexible with name matching - look for:\n" : String).data ++ r) = ["IMPORTANT:", "Be", "flexible", "with", "name", "matching", "-", "look", "for:"] ++ wtokens r :=
  fun _ => rfl

theorem gemini_extract_tok_12 (nm : String) : ∀ r : List Char,
    wtokens (("- \"" : String).data ++ (nm.data ++ (("\" (case-insensitive - match \"john\" with \"John\", \"JOHN\", etc.)\n" : String).data ++ r))) =
      ["-"] ++ (wtokens (('"' :: nm.data) ++ ['"']) ++ (["(case-insensitive", "-", "match", "\"john\"", "with", "\"John\",", "\"JOHN\",", "etc.)"] ++ wtokens r)) := by
  intro r
  rw [show ∀ X : List Char, ("- \"" : String).data ++ X =
      ("-" : String).data ++ ' ' :: '"' :: X from fun X => rfl]
  rw [wtokens_split ("-" : String).data ' ' rfl]
  rw [show ("\" (case-insensitive - match \"john\" with \"John\", \"JOHN\", etc.)\n" : String).data ++ r =
      '"' :: ' ' :: (("(case-insensitive - match \"john\" with \"John\", \"JOHN\", etc.)\n" : String).data ++ r) from rfl]
  rw [cons_append_cons '"' '"' nm.data (' ' :: (("(case-insensitive - match \"john\" with \"John\", \"JOHN\", etc.)\n" : String).data ++ r))]
  rw [wtokens_split (('"' :: nm.data) ++ ['"']) ' ' rfl]
  rfl

theorem gemini_extract_tok_13 : ∀ r : List Char,
    wtokens (("- Variations like first name only, last name only, or titles (Mr./Ms./CEO/etc.)\n" : String).data ++ r) = ["-", "Variations", "like", "first", "name", "only,", "last", "name", "only,", "or", "titles", "(Mr./Ms./CEO/etc.)"] ++ wtokens r :=
  fun _ => rfl

theorem gemini_extract_tok_14 : ∀ r : List Char,
    wtokens (("- Similar sounding names or abbreviated versions\n" : String).data ++ r) = ["-", "Similar", "sounding", "names", "or", "abbreviated", "versions"] ++ wtokens r :=
  fun _ => rfl

theorem gemini_extract_tok_15 : ∀ r : List Char,
    wtokens (("- Any capitalization variations of the name\n" : String).data ++ r) = ["-", "Any", "capitalization", "variations", "of", "the", "name"] ++ wtokens r :=
  fun _ => rfl

theorem gemini_extract_tok_16 : ∀ r : List Char,
    wtokens (("DO NOT include:\n" : String).data ++ r) = ["DO", "NOT", "include:"] ++ wtokens r :=
  fun _ => rfl

theorem gemini_extract_tok_17 : ∀ r : List Char,
    wtokens (("- Q&A responses or answers to questions\n" : String).data ++ r) = ["-", "Q&A", "responses", "or", "answers", "to", "questions"] ++ wtokens r :=
  fun _ => rfl

theorem gemini_extract_tok_18 : ∀ r : List Char,
    wtokens (("- Introductions by moderators or other people\n" : String).data ++ r) = ["-", "Introductions", "by", "moderators", "or", "other", "people"] ++ wtokens r :=
  fun _ => rfl

theorem gemini_extract_tok_19 : ∀ r : List Char,
    wtokens (("- Brief interjections or casual comments\n" : String).data ++ r) = ["-", "Brief", "interjections", "or", "casual", "comments"] ++ wtokens r :=
  fun _ => rfl

theorem gemini_extract_tok_20 : ∀ r : List Char,
    wtokens (("Return only the extracted prepared remarks text, without any commentary or explanation.\n" : String).data ++ r) = ["Return", "only", "the", "extracted", "prepared", "remarks", "text,", "without", "any", "commentary", "or", "explanation."] ++ wtokens r :=
  fun _ => rfl

theorem gemini_extract_tok_21 : ∀ r : List Char,
    wtokens (("If no substantial prepared content is found (only Q&A or brief comments), return \"NO_PREPARED_REMARKS_FOUND\".\n" : String).data ++ r) = ["If", "no", "substantial", "prepared", "content", "is", "found", "(only", "Q&A", "or", "brief", "comments),", "return", "\"NO_PREPARED_REMARKS_FOUND\"."] ++ wtokens r :=
  fun _ => rfl

theorem gemini_extract_tok_22 : ∀ r : List Char,
    wtokens (("Transcript:\n" : String).data ++ r) = ["Transcript:"] ++ wtokens r :=
  fun _ => rfl

theorem gemini_extract_prompt_tokens (full_text speaker_name : String) :
    wtokensS (GeminiProvider.extract_prompt full_text speaker_name) =
      ["You", "are", "an", "expert", "at", "extracting", "prepared", "remarks", "from", "business", "transcripts.", "Extract", "only", "the", "formal,", "prepared"]
      ++ ["content", "by", "the", "specified", "speaker."]
      ++ []
      ++ ["From", "the", "following", "transcript,", "extract", "the", "prepared", "remarks", "or", "main", "presentation", "content", "by"]
      ++ wtokens (speaker_name.data ++ ['.'])
      ++ []
      ++ ["Look", "for", "content", "where"]
      ++ wtokens speaker_name.data
      ++ ["is:"]
      ++ ["-", "Giving", "opening", "statements", "or", "prepared", "presentations"]
      ++ ["-", "Reading", "from", "prepared", "scripts", "or", "notes"]
      ++ ["-", "Delivering", "formal", "remarks", "or", "speeches"]
      ++ ["-", "Making", "structured", "presentations", "(not", "answering", "questions)"]
      ++ ["IMPORTANT:", "Be", "flexible", "with", "name", "matching", "-", "look", "for:"]
      ++ ["-"]
      ++ wtokens (('"' :: speaker_name.data) ++ ['"'])
      ++ ["(case-insensitive", "-", "match", "\"john\"", "with", "\"John\",", "\"JOHN\",", "etc.)"]
      ++ ["-", "Variations", "like", "first", "name", "only,", "last", "name", "only,", "or", "titles", "(Mr./Ms./CEO/etc.)"]
      ++ ["-", "Similar", "sounding", "names", "or", "abbreviated", "versions"]
      ++ ["-", "Any", "capitalization", "variations", "of", "the", "name"]
      ++ ["DO", "NOT", "include:"]
      ++ ["-", "Q&A", "responses", "or", "answers", "to", "questions"]
      ++ ["-", "Introductions", "by", "moderators", "or", "other", "people"]
      ++ ["-", "Brief", "interjections", "or", "casual", "comments"]
      ++ ["Return", "only", "the", "extracted", "prepared", "remarks", "text,", "without", "any", "commentary", "or", "explanation."]
      ++ ["If", "no", "substantial", "prepared", "content", "is", "found", "(only", "Q&A", "or", "brief", "comments),", "return", "\"NO_PREPARED_REMARKS_FOUND\"."]
      ++ ["Transcript:"]
      ++ wtokens full_text.data := by
  simp only [GeminiProvider.extract_prompt, wtokensS, String.data_append, List.append_assoc]
  rw [gemini_extract_tok_0]
  rw [gemini_extract_tok_1]
  rw [gemini_extract_tok_2]
  rw [gemini_extract_tok_3]
  rw [gemini_extract_tok_4 speaker_name]
  rw [gemini_extract_tok_5]
  rw [gemini_extract_tok_6 speaker_name]
  rw [gemini_extract_tok_7]
  rw [gemini_extract_tok_8]
  rw [gemini_extract_tok_9]
  rw [gemini_extract_tok_10]
  rw [gemini_extract_tok_11]
  rw [gemini_extract_tok_12 speaker_name]
  rw [gemini_extract_tok_13]
  rw [gemini_extract_tok_14]
  rw [gemini_extract_tok_15]
  rw [gemini_extract_tok_16]
  rw [gemini_extract_tok_17]
  rw [gemini_extract_tok_18]
  rw [gemini_extract_tok_19]
  rw [gemini_extract_tok_20]
  rw [gemini_extract_tok_21]
  rw [gemini_extract_tok_22]



theorem openrouter_extract_tok_0 : ∀ r : List Char,
    wtokens (("\n" : String).data ++ r) = [] ++ wtokens r :=
  fun _ => rfl

theorem openrouter_extract_tok_1 : ∀ r : List Char,
    wtokens (("        From the following transcript, extract the prepared remarks or main presentation content by " : String).data ++ r) = ["From", "the", "following", "transcript,", "extract", "the", "prepared", "remarks", "or", "main", "presentation", "content", "by"] ++ wtokens r :=
  fun _ => rfl

theorem openrouter_extract_tok_2 (nm : String) : ∀ r : List Char,
    wtokens (nm.data ++ ((".\n" : String).data ++ r)) =
      wtokens (nm.data ++ ['.']) ++ ([] ++ wtokens r) := by
  intro r
  rw [show (".\n" : String).data ++ r =
      '.' :: '\n' :: (("" : String).data ++ r) from rfl]
  rw [List.append_cons nm.data '.' ('\n' :: (("" : String).data ++ r))]
  rw [wtokens_split (nm.data ++ ['.']) '\n' rfl]
  rfl

theorem openrouter_extract_tok_3 : ∀ r : List Char,
    wtokens (("        Look for content where " : String).data ++ r) = ["Look", "for", "content", "where"] ++ wtokens r :=
  fun _ => rfl

theorem openrouter_extract_tok_4 (nm : String) : ∀ r : List Char,
    wtokens (nm.data ++ ((" is:\n" : String).data ++ r)) =
      wtokens nm.data ++ (["is:"] ++ wtokens r) := by
  intro r
  rw [show (" is:\n" : String).data ++ r =
      ' ' :: (("is:\n" : String).data ++ r) from rfl]
  rw [wtokens_split nm.data ' ' rfl]
  rfl

theorem openrouter_extract_tok_5 : ∀ r : List Char,
    wtokens (("        - Giving opening statements or prepared presentations\n" : String).data ++ r) = ["-", "Giving", "opening", "statements", "or", "prepared", "presentations"] ++ wtokens r :=
  fun _ => rfl

theorem openrouter_extract_tok_6 : ∀ r : List Char,
    wtokens (("        - Reading from prepared scripts or notes\n" : String).data ++ r) = ["-", "Reading", "from", "prepared", "scripts", "or", "notes"] ++ wtokens r :=
  fun _ => rfl

theorem openrouter_extract_tok_7 : ∀ r : List Char,
    wtokens (("        - Delivering formal remarks or speeches\n" : String).data ++ r) = ["-", "Delivering", "formal", "remarks", "or", "speeches"] ++ wtokens r :=
  fun _ => rfl

theorem openrouter_extract_tok_8 : ∀ r : List Char,
    wtokens (("        - Making structured presentations (not answering questions)\n" : String).data ++ r) = ["-", "Making", "structured", "presentations", "(not", "answering", "questions)"] ++ wtokens r :=
  fun _ => rfl

theorem openrouter_extract_tok_9 : ∀ r : List Char,
    wtokens (("        IMPORTANT: Be flexible with name matching - look for:\n" : String).data ++ r) = ["IMPORTANT:", "Be", "flexible", "with", "name", "matching", "-", "look", "for:"] ++ wtokens r :=
  fun _ => rfl

theorem openrouter_extract_tok_10 (nm : String) : ∀ r : List Char,
    wtokens (("        - \"" : String).data ++ (nm.data ++ (("\" (case-insensitive - match \"john\" with \"John\", \"JOHN\", etc.)\n" : String).data ++ r))) =
      ["-"] ++ (wtokens (('"' :: nm.data) ++ ['"']) ++ (["(case-insensitive", "-", "match", "\"john\"", "with", "\"John\",", "\"JOHN\",", "etc.)"] ++ wtokens r)) := by
  intro r
  rw [show ∀ X : List Char, ("        - \"" : String).data ++ X =
      ("        -" : String).data ++ ' ' :: '"' :: X from fun X => rfl]
  rw [wtokens_split ("        -" : String).data ' ' rfl]
  rw [show ("\" (case-insensitive - match \"john\" with \"John\", \"JOHN\", etc.)\n" : String).data ++ r =
      '"' :: ' ' :: (("(case-insensitive - match \"john\" with \"John\", \"JOHN\", etc.)\n" : String).data ++ r) from rfl]
  rw [cons_append_cons '"' '"' nm.data (' ' :: (("(case-insensitive - match \"john\" with \"John\", \"JOHN\", etc.)\n" : String).data ++ r))]
  rw [wtokens_split (('"' :: nm.data) ++ ['"']) ' ' rfl]
  rfl

theorem openrouter_extract_tok_11 : ∀ r : List Char,
    wtokens (("        - Variations like first name only, last name only, or titles (Mr./Ms./CEO/etc.)\n" : String).data ++ r) = ["-", "Variations", "like", "first", "name", "only,", "last", "name", "only,", "or", "titles", "(Mr./Ms./CEO/etc.)"] ++ wtokens r :=
  fun _ => rfl

theorem openrouter_extract_tok_12 : ∀ r : List Char,
    wtokens (("        - Similar sounding names or abbreviated versions\n" : String).data ++ r) = ["-", "Similar", "sounding", "names", "or", "abbreviated", "versions"] ++ wtokens r :=
  fun _ => rfl

theorem openrouter_extract_tok_13 : ∀ r : List Char,
    wtokens (("        - Any capitalization variations of the name\n" : String).data ++ r) = ["-", "Any", "capitalization", "variations", "of", "the", "name"] ++ wtokens r :=
  fun _ => rfl

theorem openrouter_extract_tok_14 : ∀ r : List Char,
    wtokens (("        DO NOT include:\n" : String).data ++ r) = ["DO", "NOT", "include:"] ++ wtokens r :=
  fun _ => rfl

theorem openrouter_extract_tok_15 : ∀ r : List Char,
    wtokens (("        - Q&A responses or answers to questions\n" : String).data ++ r) = ["-", "Q&A", "responses", "or", "answers", "to", "questions"] ++ wtokens r :=
  fun _ => rfl

theorem openrouter_extract_tok_16 : ∀ r : List Char,
    wtokens (("        - Introductions by moderators or other people\n" : String).data ++ r) = ["-", "Introductions", "by", "moderators", "or", "other", "people"] ++ wtokens r :=
  fun _ => rfl

theorem openrouter_extract_tok_17 : ∀ r : List Char,
    wtokens (("        - Brief interjections or casual comments\n" : String).data ++ r) = ["-", "Brief", "interjections", "or", "casual", "comments"] ++ wtokens r :=
  fun _ => rfl

theorem openrouter_extract_tok_18 : ∀ r : List Char,
    wtokens (("        Return only the extracted prepared remarks text, without any commentary or explanation.\n" : String).data ++ r) = ["Return", "only", "the", "extracted", "prepared", "remarks", "text,", "without", "any", "commentary", "or", "explanation."] ++ wtokens r :=
  fun _ => rfl

theorem openrouter_extract_tok_19 : ∀ r : List Char,
    wtokens (("        If no substantial prepared content is found (only Q&A or brief comments), return " : String).data ++ r) = ["If", "no", "substantial", "prepared", "content", "is", "found", "(only", "Q&A", "or", "brief", "comments),", "return"] ++ wtokens r :=
  fun _ => rfl

theorem openrouter_extract_tok_20 : ∀ r : List Char,
    wtokens (("\"NO_PREPARED_REMARKS_FOUND\".\n" : String).data ++ r) = ["\"NO_PREPARED_REMARKS_FOUND\"."] ++ wtokens r :=
  fun _ => rfl

theorem openrouter_extract_tok_21 : ∀ r : List Char,
    wtokens (("        Transcript:\n" : String).data ++ r) = ["Transcript:"] ++ wtokens r :=
  fun _ => rfl

theorem openrouter_extract_tok_22 : ∀ r : List Char,
    wtokens (("        " : String).data ++ r) = [] ++ wtokens r :=
  fun _ => rfl

theorem openrouter_extract_tok_23 (nm : String) :
    wtokens (nm.data ++ (("\n" : String).data ++ ("        " : String).data)) = wtokens nm.data := by
  rw [show ("\n" : String).data ++ ("        " : String).data =
      '\n' :: (("" : String).data ++ ("        " : String).data) from rfl]
  rw [wtokens_split nm.data '\n' rfl]
  rw [show wtokens (("" : String).data ++ ("        " : String).data) = ([] : List String) from rfl]
  rw [List.append_nil]

theorem openrouter_extract_prompt_tokens (full_text speaker_name : String) :
    wtokensS (OpenrouterProvider.extract_prompt full_text speaker_name) =
      []
      ++ ["From", "the", "following", "transcript,", "extract", "the", "prepared", "remarks", "or", "main", "presentation", "content", "by"]
      ++ wtokens (speaker_name.data ++ ['.'])
      ++ []
      ++ ["Look", "for", "content", "where"]
      ++ wtokens speaker_name.data
      ++ ["is:"]
      ++ ["-", "Giving", "opening", "statements", "or", "prepared", "presentations"]
      ++ ["-", "Reading", "from", "prepared", "scripts", "or", "notes"]
      ++ ["-", "Delivering", "formal", "remarks", "or", "speeches"]
      ++ ["-", "Making", "structured", "presentations", "(not", "answering", "questions)"]
      ++ ["IMPORTANT:", "Be", "flexible", "with", "name", "matching", "-", "look", "for:"]
      ++ ["-"]
      ++ wtokens (('"' :: speaker_name.data) ++ ['"'])
      ++ ["(case-insensitive", "-", "match", "\"john\"", "with", "\"John\",", "\"JOHN\",", "etc.)"]
      ++ ["-", "Variations", "like", "first", "name", "only,", "last", "name", "only,", "or", "titles", "(Mr./Ms./CEO/etc.)"]
      ++ ["-", "Similar", "sounding", "names", "or", "abbreviated", "versions"]
      ++ ["-", "Any", "capitalization", "variations", "of", "the", "name"]
      ++ ["DO", "NOT", "include:"]
      ++ ["-", "Q&A", "responses", "or", "answers", "to", "questions"]
      ++ ["-", "Introductions", "by", "moderators", "or", "other", "people"]
      ++ ["-", "Brief", "interjections", "or", "casual", "comments"]
      ++ ["Return", "only", "the", "extracted", "prepared", "remarks", "text,", "without", "any", "commentary", "or", "explanation."]
      ++ ["If", "no", "substantial", "prepared", "content", "is", "found", "(only", "Q&A", "or", "brief", "comments),", "return"]
      ++ ["\"NO_PREPARED_REMARKS_FOUND\"."]
      ++ ["Transcript:"]
      ++ []
      ++ wtokens full_text.data := by
  simp only [OpenrouterProvider.extract_prompt, wtokensS, String.data_append, List.append_assoc]
  rw [openrouter_extract_tok_0]
  rw [openrouter_extract_tok_1]
  rw [openrouter_extract_tok_2 speaker_name]
  rw [openrouter_extract_tok_3]
  rw [openrouter_extract_tok_4 speaker_name]
  rw [openrouter_extract_tok_5]
  rw [openrouter_extract_tok_6]
  rw [openrouter_extract_tok_7]
  rw [openrouter_extract_tok_8]
  rw [openrouter_extract_tok_9]
  rw [openrouter_extract_tok_10 speaker_name]
  rw [openrouter_extract_tok_11]
  rw [openrouter_extract_tok_12]
  rw [openrouter_extract_tok_13]
  rw [openrouter_extract_tok_14]
  rw [openrouter_extract_tok_15]
  rw [openrouter_extract_tok_16]
  rw [openrouter_extract_tok_17]
  rw [openrouter_extract_tok_18]
  rw [openrouter_extract_tok_19]
  rw [openrouter_extract_tok_20]
  rw [openrouter_extract_tok_21]
  rw [openrouter_extract_tok_22]
  rw [openrouter_extract_tok_23 full_text]

/-- Claim C3: with zero provider credentials configured,
`get_available_providers` returns the empty list and each of the three
operations fails immediately with the no-provider error, returning the network
state unchanged (so the HTTP call counter stays at its initial value and no
network I/O happens). -/
theorem claim_C3 (env : String → Option String)
    (h1 : env "OPENAI_API_KEY" = none) (h2 : env "CLAUDE_API_KEY" = none)
    (h3 : env "GEMINI_API_KEY" = none) (h4 : env "OPENROUTER_API_KEY" = none) :
    (LLMManager.init env).get_available_providers = []
    ∧ ∀ (net : Network) (full_text speaker_name prepared_remarks key_messages : String),
        (LLMManager.init env).extract_speaker_prepared_remarks net full_text speaker_name
          = (net, .error "No LLM provider available")
        ∧ (LLMManager.init env).generate_template net prepared_remarks speaker_name
          = (net, .error "No LLM provider available")
        ∧ (LLMManager.init env).generate_custom_speech net prepared_remarks key_messages speaker_name
          = (net, .error "No LLM provider available") := by
  have hps : envProviderList env = [] := by
    simp [envProviderList, h1, h2, h3, h4]
  have hmgr : LLMManager.init env = { providers := [], current_provider := none } := by
    simp [LLMManager.init, hps]
  refine ⟨?_, ?_⟩
  · rw [hmgr]; rfl
  · intro net full_text speaker_name prepared_remarks key_messages
    rw [hmgr]
    exact ⟨rfl, rfl, rfl⟩

/-- Witness for C3 at the empty environment. -/
theorem claim_C3_witness :
    (LLMManager.init (fun _ => none)).get_available_providers = []
    ∧ (LLMManager.init (fun _ => none)).extract_speaker_prepared_remarks
        ⟨0, .ok "resp"⟩ "doc" "Alice" = (⟨0, .ok "resp"⟩, .error "No LLM provider available") := by
  obtain ⟨ha, hb⟩ := claim_C3 (fun _ => none) rfl rfl rfl rfl
  exact ⟨ha, (hb ⟨0, .ok "resp"⟩ "doc" "Alice" "pr" "km").1⟩

/-- Claim C4: `set_provider` on an identifier with no registered adapter returns
the manager unchanged together with `false`; being a total function it raises
nothing. -/
theorem claim_C4 (m : LLMManager) (name : String)
    (h : m.providers.lookup name = none) :
    m.set_provider name = (m, false) := by
  simp [LLMManager.set_provider, h]

/-- Witness for C4: switching an empty registry to "openai" fails and leaves the
state unchanged. -/
theorem claim_C4_witness :
    (LLMManager.init (fun _ => none)).set_provider "openai"
      = (LLMManager.init (fun _ => none), false) :=
  claim_C4 (LLMManager.init (fun _ => none)) "openai" rfl

/-- Claim C5: in every reachable manager state the current-provider reference is
either unset or a key of the provider collection. -/
theorem claim_C5 (m : LLMManager) (h : ReachableManager m) :
    m.current_provider = none
    ∨ ∃ k, m.current_provider = some k ∧ (m.providers.lookup k).isSome = true := by
  induction h with
  | construct env =>
      cases hps : envProviderList env with
      | nil =>
          left
          simp [LLMManager.init, hps]
      | cons kv rest =>
          right
          refine ⟨kv.1, ?_, ?_⟩
          · simp [LLMManager.init, hps]
          · simp [LLMManager.init, hps, List.lookup]
  | switch m name _ ih =>
      by_cases hl : (m.providers.lookup name).isSome
      · right
        refine ⟨name, ?_, ?_⟩ <;> simp [LLMManager.set_provider, hl]
      · rcases ih with hnone | ⟨k, hk, hks⟩
        · left; simpa [LLMManager.set_provider, hl] using hnone
        · right; exact ⟨k, by simpa [LLMManager.set_provider, hl] using hk,
            by simpa [LLMManager.set_provider, hl] using hks⟩

/-- Witness for C5 at a freshly constructed manager. -/
theorem claim_C5_witness :
    (LLMManager.init envGemini).current_provider = none
    ∨ ∃ k, (LLMManager.init envGemini).current_provider = some k
        ∧ ((LLMManager.init envGemini).providers.lookup k).isSome = true :=
  claim_C5 (LLMManager.init envGemini) (ReachableManager.construct envGemini)

/-- Claim C9: a successful provider switch through the web route flips only the
current-provider reference: the adapter collection and every stored artifact
string are unchanged, and the three operations afterwards dispatch to the newly
selected adapter. -/
theorem claim_C9 (st : AppState) (name : String) (p : Provider)
    (hl : st.manager.providers.lookup name = some p) (hne : name ≠ "") :
    (st.set_provider_route name).2 = true
    ∧ (st.set_provider_route name).1.manager.providers = st.manager.providers
    ∧ (st.set_provider_route name).1.manager.current_provider = some name
    ∧ (st.set_provider_route name).1.speaker_content = st.speaker_content
    ∧ (st.set_provider_route name).1.generated_template = st.generated_template
    ∧ (st.set_provider_route name).1.generated_speech = st.generated_speech
    ∧ (st.set_provider_route name).1.generated_prompt = st.generated_prompt
    ∧ (st.set_provider_route name).1.manager.get_current_provider = some p
    ∧ (∀ (net : Network) (full_text speaker_name : String),
        (st.set_provider_route name).1.manager.extract_speaker_prepared_remarks
            net full_text speaker_name
          = p.extract_speaker_prepared_remarks net full_text speaker_name)
    ∧ (∀ (net : Network) (prepared_remarks speaker_name : String),
        (st.set_provider_route name).1.manager.generate_template
            net prepared_remarks speaker_name
          = p.generate_template net prepared_remarks speaker_name)
    ∧ (∀ (net : Network) (prepared_remarks key_messages speaker_name : String),
        (st.set_provider_route name).1.manager.generate_custom_speech
            net prepared_remarks key_messages speaker_name
          = p.generate_custom_speech net prepared_remarks key_messages speaker_name) := by
  have hc : (st.manager.get_available_providers).contains name = true :=
    lookup_mem_keys _ _ _ hl
  have hls : (st.manager.providers.lookup name).isSome = true := by rw [hl]; rfl
  have hroute : st.set_provider_route name
      = ({ st with manager := { st.manager with current_provider := some name } }, true) := by
    simp only [AppState.set_provider_route, LLMManager.set_provider, hc, hls,
      eq_self_iff_true, if_true]
  have hcur : ({ st.manager with current_provider := some name } :
      LLMManager).get_current_provider = some p := by
    simp [LLMManager.get_current_provider, hne, hl]
  rw [hroute]
  refine ⟨rfl, rfl, rfl, rfl, rfl, rfl, rfl, hcur, ?_, ?_, ?_⟩
  · intro net full_text speaker_name
    simp [LLMManager.extract_speaker_prepared_remarks, hcur]
  · intro net prepared_remarks speaker_name
    simp [LLMManager.generate_template, hcur]
  · intro net prepared_remarks key_messages speaker_name
    simp [LLMManager.generate_custom_speech, hcur]

/-- Witness for C9: switching a one-provider registry to "gemini" while
artifacts are stored. -/
theorem claim_C9_witness :
    ((AppState.mk (LLMManager.init envGemini) (some "remarks") (some "template")
        (some "speech") (some "prompt")).set_provider_route "gemini").2 = true
    ∧ ((AppState.mk (LLMManager.init envGemini) (some "remarks") (some "template")
        (some "speech") (some "prompt")).set_provider_route "gemini").1.speaker_content
        = some "remarks" := by
  have h := claim_C9
    (AppState.mk (LLMManager.init envGemini) (some "remarks") (some "template")
      (some "speech") (some "prompt"))
    "gemini" ⟨ProviderKind.gemini, "gk"⟩ rfl (by decide)
  exact ⟨h.1, h.2.2.2.1⟩
-- Claims C2 and C10: response-length policy and totality of the extraction wrapper.

/-- Claim C2 counterexample: the template operation returns a 2-character raw
response as a success, so the under-50-characters check is not applied to it
(the claim asserts the check is applied uniformly to all three operations). -/
theorem claim_C2_counterexample :
    ((LLMManager.init envGemini).generate_template ⟨0, Except.ok "ok"⟩
        "some prepared remarks" "Alice").2 = Except.ok "ok"
    ∧ (pyStrip "ok").length < 50 := by
  exact ⟨rfl, by decide⟩

/-- Claim C2 as amended: the empty/whitespace-only and under-50-characters
response checks are applied to the extraction operation only, inside
`extract_speaker_content_via_llm`; the template and custom-speech operations
return the raw model response unchecked. -/
theorem claim_C2_amended :
    (∀ (mgr : LLMManager) (net net2 : Network) (full_text speaker_name resp : String),
      pyStrip full_text ≠ "" → pyStrip speaker_name ≠ "" →
      mgr.extract_speaker_prepared_remarks net full_text (pyStrip speaker_name)
        = (net2, .ok resp) →
      (pyStrip resp).length < 50 →
      ((PDFProcessor.mk (some mgr)).extract_speaker_content_via_llm
          net full_text speaker_name).2.extraction_success = false
      ∧ ((PDFProcessor.mk (some mgr)).extract_speaker_content_via_llm
          net full_text speaker_name).2.error.isSome = true)
    ∧ (∀ (k : ProviderKind) (key : String) (net : Network)
        (prepared_remarks speaker_name resp : String),
        net.outcome = .ok resp →
        (Provider.generate_template ⟨k, key⟩ net prepared_remarks speaker_name).2
          = .ok resp)
    ∧ (∀ (k : ProviderKind) (key : String) (net : Network)
        (prepared_remarks key_messages speaker_name resp : String),
        net.outcome = .ok resp →
        ∃ prompt,
          (Provider.generate_custom_speech ⟨k, key⟩ net
              prepared_remarks key_messages speaker_name).2 = .ok (resp, prompt)) := by
  refine ⟨?_, ?_, ?_⟩
  · intro mgr net net2 full_text speaker_name resp hft hsn hex hlen
    simp only [PDFProcessor.extract_speaker_content_via_llm, if_neg hft, if_neg hsn, hex]
    by_cases hz : pyStrip resp = ""
    · simp [hz, failureResult]
    · simp [hz, Nat.lt_iff_add_one_le.mp hlen, hlen, failureResult]
  · intro k key net prepared_remarks speaker_name resp hok
    cases k <;>
      simp [Provider.generate_template, OpenAIProvider.generate_template,
        ClaudeProvider.generate_template, GeminiProvider.generate_template,
        OpenrouterProvider.generate_template, OpenAIProvider.make_request,
        ClaudeProvider.make_request, GeminiProvider.make_request,
        OpenrouterProvider.make_request, Network.post, hok]
  · intro k key net prepared_remarks key_messages speaker_name resp hok
    cases k with
    | openai =>
        refine ⟨OpenAIProvider.custom_speech_prompt prepared_remarks key_messages speaker_name, ?_⟩
        simp [Provider.generate_custom_speech, OpenAIProvider.generate_custom_speech,
          OpenAIProvider.make_request, Network.post, hok]
    | claude =>
        refine ⟨ClaudeProvider.custom_speech_prompt prepared_remarks key_messages speaker_name, ?_⟩
        simp [Provider.generate_custom_speech, ClaudeProvider.generate_custom_speech,
          ClaudeProvider.make_request, Network.post, hok]
    | gemini =>
        refine ⟨GeminiProvider.custom_speech_prompt prepared_remarks key_messages speaker_name, ?_⟩
        simp [Provider.generate_custom_speech, GeminiProvider.generate_custom_speech,
          GeminiProvider.make_request, Network.post, hok]
    | openrouter =>
        refine ⟨OpenrouterProvider.custom_speech_prompt prepared_remarks key_messages speaker_name, ?_⟩
        simp [Provider.generate_custom_speech, OpenrouterProvider.generate_custom_speech,
          OpenrouterProvider.make_request, Network.post, hok]

/-- Witness for the amended C2 at a concrete short-response scenario. -/
theorem claim_C2_amended_witness :
    ((PDFProcessor.mk (some (LLMManager.init envGemini))).extract_speaker_content_via_llm
        ⟨0, Except.ok "ok"⟩ "doc" "Alice").2.extraction_success = false
    ∧ (Provider.generate_template ⟨ProviderKind.gemini, "gk"⟩ ⟨0, Except.ok "ok"⟩
        "pr" "Alice").2 = .ok "ok" := by
  refine ⟨?_, ?_⟩
  · exact (claim_C2_amended.1 (LLMManager.init envGemini) ⟨0, Except.ok "ok"⟩
      ⟨1, Except.ok "ok"⟩ "doc" "Alice" "ok" (by decide) (by decide) rfl (by decide)).1
  · exact claim_C2_amended.2.1 ProviderKind.gemini "gk" ⟨0, Except.ok "ok"⟩
      "pr" "Alice" "ok" rfl

/-- Every run of the extraction wrapper ends in the failure dict or in the
success dict built from the stripped response. -/
theorem wrapper_shape (proc : PDFProcessor) (net : Network) (ft sn : String) :
    (∃ nm msg, (proc.extract_speaker_content_via_llm net ft sn).2 = failureResult nm msg)
    ∨ (∃ c, 50 ≤ c.length ∧ c ≠ ""
        ∧ (proc.extract_speaker_content_via_llm net ft sn).2 = successResult (pyStrip sn) c) := by
  unfold PDFProcessor.extract_speaker_content_via_llm
  cases hm : proc.llm_manager with
  | none => exact Or.inl ⟨_, _, rfl⟩
  | some mgr =>
      by_cases hft : pyStrip ft = ""
      · simp only [if_pos hft]
        exact Or.inl ⟨_, _, rfl⟩
      · simp only [if_neg hft]
        by_cases hsn : pyStrip sn = ""
        · simp only [if_pos hsn]
          exact Or.inl ⟨_, _, rfl⟩
        · simp only [if_neg hsn]
          rcases hres : mgr.extract_speaker_prepared_remarks net ft (pyStrip sn) with ⟨net2, res⟩
          cases res with
          | error e =>
              simp only [hres]
              exact Or.inl ⟨_, _, rfl⟩
          | ok resp =>
              simp only [hres]
              by_cases hz : pyStrip resp = ""
              · simp only [if_pos hz]
                exact Or.inl ⟨_, _, rfl⟩
              · simp only [if_neg hz]
                by_cases hlt : (pyStrip resp).length < 50
                · simp only [if_pos hlt]
                  exact Or.inl ⟨_, _, rfl⟩
                · simp only [if_neg hlt]
                  exact Or.inr ⟨pyStrip resp, Nat.le_of_not_lt hlt, hz, rfl⟩

/-- Claim C10: the extraction wrapper is total over its failure modes: it always
returns a result dict; on failure the dict carries success=false, empty content,
zero length and an error message; on success it carries success=true, no error
and the stripped remarks of at least 50 characters; and each listed failure mode
(missing manager, blank text, blank name, provider exception, empty or short
response) yields the failure dict. -/
theorem claim_C10 (proc : PDFProcessor) (net : Network) (ft sn : String) :
    (((proc.extract_speaker_content_via_llm net ft sn).2.extraction_success = false →
        (proc.extract_speaker_content_via_llm net ft sn).2.content = ""
        ∧ (proc.extract_speaker_content_via_llm net ft sn).2.content_length = 0
        ∧ (proc.extract_speaker_content_via_llm net ft sn).2.extraction_method = "failed"
        ∧ ((proc.extract_speaker_content_via_llm net ft sn).2.error).isSome = true)
    ∧ ((proc.extract_speaker_content_via_llm net ft sn).2.extraction_success = true →
        (proc.extract_speaker_content_via_llm net ft sn).2.error = none
        ∧ (proc.extract_speaker_content_via_llm net ft sn).2.content ≠ ""
        ∧ 50 ≤ (proc.extract_speaker_content_via_llm net ft sn).2.content.length
        ∧ (proc.extract_speaker_content_via_llm net ft sn).2.content_length
            = (proc.extract_speaker_content_via_llm net ft sn).2.content.length
        ∧ (proc.extract_speaker_content_via_llm net ft sn).2.extraction_method = "llm"))
    ∧ ((proc.llm_manager = none →
        (proc.extract_speaker_content_via_llm net ft sn).2.extraction_success = false)
    ∧ (pyStrip ft = "" →
        (proc.extract_speaker_content_via_llm net ft sn).2.extraction_success = false)
    ∧ (pyStrip sn = "" →
        (proc.extract_speaker_content_via_llm net ft sn).2.extraction_success = false)
    ∧ (∀ (mgr : LLMManager) (net2 : Network) (e : String),
        proc.llm_manager = some mgr →
        mgr.extract_speaker_prepared_remarks net ft (pyStrip sn) = (net2, .error e) →
        (proc.extract_speaker_content_via_llm net ft sn).2.extraction_success = false)
    ∧ (∀ (mgr : LLMManager) (net2 : Network) (resp : String),
        proc.llm_manager = some mgr →
        mgr.extract_speaker_prepared_remarks net ft (pyStrip sn) = (net2, .ok resp) →
        (pyStrip resp).length < 50 →
        (proc.extract_speaker_content_via_llm net ft sn).2.extraction_success = false)) := by
  constructor
  · rcases wrapper_shape proc net ft sn with ⟨nm, msg, hs⟩ | ⟨c, hc50, hcz, hs⟩
    · rw [hs]
      refine ⟨fun _ => ⟨rfl, rfl, rfl, rfl⟩, fun htrue => absurd htrue ?_⟩
      simp [failureResult]
    · rw [hs]
      refine ⟨fun hfalse => absurd hfalse ?_, fun _ => ⟨rfl, hcz, hc50, rfl, rfl⟩⟩
      simp [successResult]
  · refine ⟨?_, ?_, ?_, ?_, ?_⟩
    · intro hm
      simp [PDFProcessor.extract_speaker_content_via_llm, hm, failureResult]
    · intro hft
      unfold PDFProcessor.extract_speaker_content_via_llm
      cases proc.llm_manager with
      | none => simp [failureResult]
      | some mgr => simp [if_pos hft, failureResult]
    · intro hsn
      unfold PDFProcessor.extract_speaker_content_via_llm
      cases proc.llm_manager with
      | none => simp [failureResult]
      | some mgr =>
          by_cases hft : pyStrip ft = "" <;>
            simp [hft, hsn, failureResult]
    · intro mgr net2 e hm hres
      by_cases hft : pyStrip ft = ""
      · unfold PDFProcessor.extract_speaker_content_via_llm
        simp [hm, hft, failureResult]
      · by_cases hsn : pyStrip sn = ""
        · unfold PDFProcessor.extract_speaker_content_via_llm
          simp [hm, hft, hsn, failureResult]
        · unfold PDFProcessor.extract_speaker_content_via_llm
          simp [hm, hft, hsn, hres, failureResult]
    · intro mgr net2 resp hm hres hlen
      by_cases hft : pyStrip ft = ""
      · unfold PDFProcessor.extract_speaker_content_via_llm
        simp [hm, hft, failureResult]
      · by_cases hsn : pyStrip sn = ""
        · unfold PDFProcessor.extract_speaker_content_via_llm
          simp [hm, hft, hsn, failureResult]
        · unfold PDFProcessor.extract_speaker_content_via_llm
          by_cases hz : pyStrip resp = ""
          · simp [hm, hft, hsn, hres, hz, failureResult]
          · simp [hm, hft, hsn, hres, hz, hlen, failureResult]

/-- Witness for C10 on a concrete success run (52-character response). -/
theorem claim_C10_witness :
    ((PDFProcessor.mk (some (LLMManager.init envGemini))).extract_speaker_content_via_llm
        ⟨0, Except.ok "this response surely carries at least fifty characters"⟩
        "doc" "Alice").2.extraction_success = false
    ∨ ((PDFProcessor.mk (some (LLMManager.init envGemini))).extract_speaker_content_via_llm
        ⟨0, Except.ok "this response surely carries at least fifty characters"⟩
        "doc" "Alice").2.error = none := by
  cases hb : ((PDFProcessor.mk (some (LLMManager.init envGemini))).extract_speaker_content_via_llm
      ⟨0, Except.ok "this response surely carries at least fifty characters"⟩
      "doc" "Alice").2.extraction_success with
  | false => exact Or.inl rfl
  | true => exact Or.inr ((claim_C10 (PDFProcessor.mk (some (LLMManager.init envGemini)))
      ⟨0, Except.ok "this response surely carries at least fifty characters"⟩
      "doc" "Alice").1.2 hb).1
-- Claim C1: sentinel reclassification to the not-found failure, for every
-- provider variant, distinguishable from every transport failure.

/-- Claim C1: for every provider variant, a raw response containing the sentinel
anywhere makes extraction fail with the not-found message (which names the
speaker and states that no prepared remarks were found), and that failure value
differs from the failure produced by any transport (HTTP/JSON) error. -/
theorem claim_C1 (k : ProviderKind) (key : String) (net : Network)
    (full_text speaker_name resp : String)
    (hok : net.outcome = .ok resp) (hsent : IsSubstrOf SENTINEL resp) :
    ∃ msg,
      (Provider.extract_speaker_prepared_remarks ⟨k, key⟩ net full_text speaker_name).2
        = .error msg
      ∧ IsSubstrOf ("No prepared remarks found for '" ++ speaker_name
          ++ "' in the document.") msg
      ∧ ∀ (net2 : Network) (ft2 e : String), net2.outcome = .error e →
          ∃ msgT,
            (Provider.extract_speaker_prepared_remarks ⟨k, key⟩ net2 ft2 speaker_name).2
              = .error msgT
            ∧ msgT ≠ msg := by
  have hb : strContainsSub resp SENTINEL = true := (strContainsSub_iff resp SENTINEL).2 hsent
  cases k with
  | openai =>
      refine ⟨"Failed to extract speaker content: "
        ++ OpenAIProvider.not_found_message speaker_name, ?_, ?_, ?_⟩
      · simp [Provider.extract_speaker_prepared_remarks,
          OpenAIProvider.extract_speaker_prepared_remarks,
          OpenAIProvider.make_request, Network.post, hok, hb]
      · refine ⟨"Failed to extract speaker content: ",
          "\n" ++ "\n" ++ "Troubleshooting tips:\n"
          ++ "• Verify the speaker name matches exactly as it appears in the PDF\n"
          ++ "• Try variations like first name only or last name only\n"
          ++ "• Check if the document contains prepared remarks (not just Q&A)\n"
          ++ "• Ensure the speaker has substantial speaking content in the document", ?_⟩
        apply str_ext
        simp [OpenAIProvider.not_found_message, String.data_append, List.append_assoc]
      · intro net2 ft2 e he
        refine ⟨"Failed to extract speaker content: " ++ ("OpenAI API error: " ++ e), ?_, ?_⟩
        · simp [Provider.extract_speaker_prepared_remarks,
            OpenAIProvider.extract_speaker_prepared_remarks,
            OpenAIProvider.make_request, Network.post, he]
        · simp only [OpenAIProvider.not_found_message, String.append_assoc]
          exact append_ne_append _ "OpenAI API error: " _
            "No prepared remarks found for '" _ 'O' 'N' rfl rfl (by decide)
  | claude =>
      refine ⟨"Failed to extract speaker content: "
        ++ ClaudeProvider.not_found_message speaker_name, ?_, ?_, ?_⟩
      · simp [Provider.extract_speaker_prepared_remarks,
          ClaudeProvider.extract_speaker_prepared_remarks,
          ClaudeProvider.make_request, Network.post, hok, hb]
      · refine ⟨"Failed to extract speaker content: ",
          "\n" ++ "\n" ++ "Troubleshooting tips:\n"
          ++ "• Verify the speaker name matches exactly as it appears in the PDF\n"
          ++ "• Try variations like first name only or last name only\n"
          ++ "• Check if the document contains prepared remarks (not just Q&A)\n"
          ++ "• Ensure the speaker has substantial speaking content in the document", ?_⟩
        apply str_ext
        simp [ClaudeProvider.not_found_message, String.data_append, List.append_assoc]
      · intro net2 ft2 e he
        refine ⟨"Failed to extract speaker content: " ++ ("Claude API error: " ++ e), ?_, ?_⟩
        · simp [Provider.extract_speaker_prepared_remarks,
            ClaudeProvider.extract_speaker_prepared_remarks,
            ClaudeProvider.make_request, Network.post, he]
        · simp only [ClaudeProvider.not_found_message, String.append_assoc]
          exact append_ne_append _ "Claude API error: " _
            "No prepared remarks found for '" _ 'C' 'N' rfl rfl (by decide)
  | gemini =>
      refine ⟨GeminiProvider.not_found_message speaker_name, ?_, ?_, ?_⟩
      · simp [Provider.extract_speaker_prepared_remarks,
          GeminiProvider.extract_speaker_prepared_remarks,
          GeminiProvider.make_request, Network.post, hok, hb]
      · refine ⟨"", "", ?_⟩
        apply str_ext
        simp [GeminiProvider.not_found_message, String.data_append, List.append_assoc]
      · intro net2 ft2 e he
        refine ⟨"Gemini API error: " ++ e, ?_, ?_⟩
        · simp [Provider.extract_speaker_prepared_remarks,
            GeminiProvider.extract_speaker_prepared_remarks,
            GeminiProvider.make_request, Network.post, he]
        · simp only [GeminiProvider.not_found_message, String.append_assoc]
          exact append_ne_append "" "Gemini API error: " _
            "No prepared remarks found for '" _ 'G' 'N' rfl rfl (by decide)
  | openrouter =>
      refine ⟨OpenrouterProvider.not_found_message speaker_name, ?_, ?_, ?_⟩
      · simp [Provider.extract_speaker_prepared_remarks,
          OpenrouterProvider.extract_speaker_prepared_remarks,
          OpenrouterProvider.make_request, Network.post, hok, hb]
      · refine ⟨"", "", ?_⟩
        apply str_ext
        simp [OpenrouterProvider.not_found_message, String.data_append, List.append_assoc]
      · intro net2 ft2 e he
        refine ⟨"Openrouter API error: " ++ e, ?_, ?_⟩
        · simp [Provider.extract_speaker_prepared_remarks,
            OpenrouterProvider.extract_speaker_prepared_remarks,
            OpenrouterProvider.make_request, Network.post, he]
        · simp only [OpenrouterProvider.not_found_message, String.append_assoc]
          exact append_ne_append "" "Openrouter API error: " _
            "No prepared remarks found for '" _ 'O' 'N' rfl rfl (by decide)

/-- Witness for C1: OpenAI variant on a response that is exactly the sentinel. -/
theorem claim_C1_witness :
    ∃ msg,
      (Provider.extract_speaker_prepared_remarks ⟨ProviderKind.openai, "k"⟩
          ⟨0, Except.ok SENTINEL⟩ "doc" "Alice").2 = .error msg
      ∧ IsSubstrOf ("No prepared remarks found for '" ++ "Alice" ++ "' in the document.") msg
      ∧ ∀ (net2 : Network) (ft2 e : String), net2.outcome = .error e →
          ∃ msgT,
            (Provider.extract_speaker_prepared_remarks ⟨ProviderKind.openai, "k"⟩
                net2 ft2 "Alice").2 = .error msgT
            ∧ msgT ≠ msg :=
  claim_C1 ProviderKind.openai "k" ⟨0, Except.ok SENTINEL⟩ "doc" "Alice" SENTINEL rfl
    ⟨"", "", by apply str_ext; simp [String.data_append]⟩
-- Claims C6 and C7: custom-speech prompt contents and the truncation/length constants.

theorem substr_self (x : String) : IsSubstrOf x x :=
  ⟨"", "", by apply str_ext; simp [String.data_append]⟩

theorem substr_left (x y z : String) (h : IsSubstrOf x y) : IsSubstrOf x (z ++ y) := by
  obtain ⟨a, b, hab⟩ := h
  exact ⟨z ++ a, b, by rw [hab]; apply str_ext; simp [String.data_append, List.append_assoc]⟩

theorem substr_right (x y z : String) (h : IsSubstrOf x y) : IsSubstrOf x (y ++ z) := by
  obtain ⟨a, b, hab⟩ := h
  exact ⟨a, b ++ z, by rw [hab]; apply str_ext; simp [String.data_append, List.append_assoc]⟩

/-- Claim C6: for every provider variant, with prepared remarks of at least 50
characters and non-empty key messages, `generate_custom_speech` returns the
pair (speech, prompt) where the prompt contains the literal key messages and
the literal prepared remarks (truncated per provider) as substrings. -/
theorem claim_C6 (k : ProviderKind) (key : String) (net : Network)
    (prepared_remarks key_messages speaker_name resp : String)
    (hok : net.outcome = .ok resp) (_hpr : 50 ≤ prepared_remarks.length)
    (_hkm : key_messages ≠ "") :
    ∃ speech prompt,
      (Provider.generate_custom_speech ⟨k, key⟩ net
          prepared_remarks key_messages speaker_name).2 = .ok (speech, prompt)
      ∧ IsSubstrOf key_messages prompt
      ∧ IsSubstrOf (styleContext k prepared_remarks) prompt := by
  cases k with
  | openai =>
      refine ⟨resp,
        OpenAIProvider.custom_speech_prompt prepared_remarks key_messages speaker_name,
        ?_, ?_, ?_⟩
      · simp [Provider.generate_custom_speech, OpenAIProvider.generate_custom_speech,
          OpenAIProvider.make_request, Network.post, hok]
      · simp only [OpenAIProvider.custom_speech_prompt]
        repeat first
          | exact substr_left _ _ _ (substr_self _)
          | apply substr_right
      · show IsSubstrOf prepared_remarks _
        simp only [OpenAIProvider.custom_speech_prompt]
        repeat first
          | exact substr_left _ _ _ (substr_self _)
          | apply substr_right
  | claude =>
      refine ⟨resp,
        ClaudeProvider.custom_speech_prompt prepared_remarks key_messages speaker_name,
        ?_, ?_, ?_⟩
      · simp [Provider.generate_custom_speech, ClaudeProvider.generate_custom_speech,
          ClaudeProvider.make_request, Network.post, hok]
      · simp only [ClaudeProvider.custom_speech_prompt]
        repeat first
          | exact substr_left _ _ _ (substr_self _)
          | apply substr_right
      · show IsSubstrOf (pyTake prepared_remarks 2000) _
        simp only [ClaudeProvider.custom_speech_prompt]
        repeat first
          | exact substr_left _ _ _ (substr_self _)
          | apply substr_right
  | gemini =>
      refine ⟨resp,
        GeminiProvider.custom_speech_prompt prepared_remarks key_messages speaker_name,
        ?_, ?_, ?_⟩
      · simp [Provider.generate_custom_speech, GeminiProvider.generate_custom_speech,
          GeminiProvider.make_request, Network.post, hok]
      · simp only [GeminiProvider.custom_speech_prompt]
        repeat first
          | exact substr_left _ _ _ (substr_self _)
          | apply substr_right
      · show IsSubstrOf prepared_remarks _
        simp only [GeminiProvider.custom_speech_prompt]
        repeat first
          | exact substr_left _ _ _ (substr_self _)
          | apply substr_right
  | openrouter =>
      refine ⟨resp,
        OpenrouterProvider.custom_speech_prompt prepared_remarks key_messages speaker_name,
        ?_, ?_, ?_⟩
      · simp [Provider.generate_custom_speech, OpenrouterProvider.generate_custom_speech,
          OpenrouterProvider.make_request, Network.post, hok]
      · simp only [OpenrouterProvider.custom_speech_prompt]
        repeat first
          | exact substr_left _ _ _ (substr_self _)
          | apply substr_right
      · show IsSubstrOf prepared_remarks _
        simp only [OpenrouterProvider.custom_speech_prompt]
        repeat first
          | exact substr_left _ _ _ (substr_self _)
          | apply substr_right

/-- Witness for C6: OpenAI variant on the round-trip scenario of the spec. -/
theorem claim_C6_witness :
    ∃ speech prompt,
      (Provider.generate_custom_speech ⟨ProviderKind.openai, "k"⟩
          ⟨0, Except.ok "generated speech"⟩
          "We delivered strong results this quarter and our teams executed well"
          "Focus on supply chain resilience and new product launches" "Alice").2
        = .ok (speech, prompt)
      ∧ IsSubstrOf "Focus on supply chain resilience and new product launches" prompt
      ∧ IsSubstrOf (styleContext ProviderKind.openai
          "We delivered strong results this quarter and our teams executed well") prompt :=
  claim_C6 ProviderKind.openai "k" ⟨0, Except.ok "generated speech"⟩
    "We delivered strong results this quarter and our teams executed well"
    "Focus on supply chain resilience and new product launches" "Alice"
    "generated speech" rfl (by decide) (by decide)

/-- Claim C7: exactly the Claude variant truncates the style context to the
first 2000 characters (its prompt only depends on that prefix and contains it),
the other three variants embed the full prepared remarks, and the
response-policy length floor of the extraction wrapper is 50 characters. -/
theorem claim_C7 :
    (∀ (prepared_remarks key_messages speaker_name : String),
      ClaudeProvider.custom_speech_prompt prepared_remarks key_messages speaker_name
        = ClaudeProvider.custom_speech_prompt (pyTake prepared_remarks 2000)
            key_messages speaker_name)
    ∧ (∀ (prepared_remarks key_messages speaker_name : String),
        IsSubstrOf (pyTake prepared_remarks 2000)
          (ClaudeProvider.custom_speech_prompt prepared_remarks key_messages speaker_name))
    ∧ (∀ (prepared_remarks key_messages speaker_name : String),
        IsSubstrOf prepared_remarks
          (OpenAIProvider.custom_speech_prompt prepared_remarks key_messages speaker_name))
    ∧ (∀ (prepared_remarks key_messages speaker_name : String),
        IsSubstrOf prepared_remarks
          (GeminiProvider.custom_speech_prompt prepared_remarks key_messages speaker_name))
    ∧ (∀ (prepared_remarks key_messages speaker_name : String),
        IsSubstrOf prepared_remarks
          (OpenrouterProvider.custom_speech_prompt prepared_remarks key_messages speaker_name))
    ∧ (∀ (mgr : LLMManager) (net net2 : Network) (full_text speaker_name resp : String),
        pyStrip full_text ≠ "" → pyStrip speaker_name ≠ "" →
        mgr.extract_speaker_prepared_remarks net full_text (pyStrip speaker_name)
          = (net2, .ok resp) →
        pyStrip resp ≠ "" →
        (((PDFProcessor.mk (some mgr)).extract_speaker_content_via_llm
            net full_text speaker_name).2.extraction_success = true
          ↔ 50 ≤ (pyStrip resp).length)) := by
  refine ⟨?_, ?_, ?_, ?_, ?_, ?_⟩
  · intro prepared_remarks key_messages speaker_name
    simp only [ClaudeProvider.custom_speech_prompt, pyTake_pyTake]
  · intro prepared_remarks key_messages speaker_name
    simp only [ClaudeProvider.custom_speech_prompt]
    repeat first
      | exact substr_left _ _ _ (substr_self _)
      | apply substr_right
  · intro prepared_remarks key_messages speaker_name
    simp only [OpenAIProvider.custom_speech_prompt]
    repeat first
      | exact substr_left _ _ _ (substr_self _)
      | apply substr_right
  · intro prepared_remarks key_messages speaker_name
    simp only [GeminiProvider.custom_speech_prompt]
    repeat first
      | exact substr_left _ _ _ (substr_self _)
      | apply substr_right
  · intro prepared_remarks key_messages speaker_name
    simp only [OpenrouterProvider.custom_speech_prompt]
    repeat first
      | exact substr_left _ _ _ (substr_self _)
      | apply substr_right
  · intro mgr net net2 full_text speaker_name resp hft hsn hres hz
    simp only [PDFProcessor.extract_speaker_content_via_llm, if_neg hft, if_neg hsn,
      hres, if_neg hz]
    by_cases hlt : (pyStrip resp).length < 50
    · rw [if_pos hlt]
      simp only [failureResult, Bool.false_eq_true, false_iff]
      omega
    · simp [if_neg hlt, successResult, Nat.le_of_not_lt hlt]

/-- Witness for C7 on a concrete 54-character response through the Gemini
provider. -/
theorem claim_C7_witness :
    ClaudeProvider.custom_speech_prompt "p" "k" "s"
      = ClaudeProvider.custom_speech_prompt (pyTake "p" 2000) "k" "s"
    ∧ (((PDFProcessor.mk (some (LLMManager.init envGemini))).extract_speaker_content_via_llm
        ⟨0, Except.ok "this response surely carries at least fifty characters"⟩
        "doc" "Alice").2.extraction_success = true
      ↔ 50 ≤ (pyStrip "this response surely carries at least fifty characters").length) := by
  refine ⟨claim_C7.1 "p" "k" "s", ?_⟩
  exact claim_C7.2.2.2.2.2 (LLMManager.init envGemini)
    ⟨0, Except.ok "this response surely carries at least fifty characters"⟩
    ⟨1, Except.ok "this response surely carries at least fifty characters"⟩
    "doc" "Alice" (pyStrip "this response surely carries at least fifty characters")
    (by decide) (by decide) rfl (by decide)
theorem infix_here (l rest : List String) : l <:+: l ++ rest := ⟨[], rest, rfl⟩

theorem infix_extend_left (l a b : List String) (h : l <:+: b) : l <:+: a ++ b := by
  obtain ⟨s, t, hst⟩ := h
  exact ⟨a ++ s, t, by rw [← hst]; simp [List.append_assoc]⟩

/-- The word list of the shared extraction system message. -/
theorem extract_system_tokens :
    wtokensS OpenAIProvider.extract_system =
      ["You", "are", "an", "expert", "at", "extracting", "prepared", "remarks", "from",
       "business", "transcripts.", "Extract", "only", "the", "formal,", "prepared",
       "content", "by", "the", "specified", "speaker."] := rfl

/-- Claim C8: the four extraction prompt builders agree modulo message-envelope
placement and whitespace: the Claude prompt is literally identical to the OpenAI
user prompt, the Openrouter user prompt has the same whitespace-separated words,
the Gemini prompt is the system message inlined before the same words, the
OpenAI and Openrouter system messages coincide, and every variant's prompt
contains the name-matching header and the exclusion instructions verbatim as
word sequences. -/
theorem claim_C8 (full_text speaker_name : String) :
    ClaudeProvider.extract_prompt full_text speaker_name
      = OpenAIProvider.extract_prompt full_text speaker_name
    ∧ OpenrouterProvider.extract_system = OpenAIProvider.extract_system
    ∧ wtokensS (OpenrouterProvider.extract_prompt full_text speaker_name)
      = wtokensS (OpenAIProvider.extract_prompt full_text speaker_name)
    ∧ wtokensS (GeminiProvider.extract_prompt full_text speaker_name)
      = wtokensS OpenAIProvider.extract_system
        ++ wtokensS (OpenAIProvider.extract_prompt full_text speaker_name)
    ∧ ∀ p : String → String → String,
        p ∈ [OpenAIProvider.extract_prompt, ClaudeProvider.extract_prompt,
             GeminiProvider.extract_prompt, OpenrouterProvider.extract_prompt] →
        nameMatchingInstrTokens <:+: wtokensS (p full_text speaker_name)
        ∧ exclusionInstrTokens <:+: wtokensS (p full_text speaker_name) := by
  have hnmO : nameMatchingInstrTokens
      <:+: wtokensS (OpenAIProvider.extract_prompt full_text speaker_name) := by
    rw [openai_extract_prompt_tokens]
    simp only [List.append_assoc]
    repeat first
      | exact infix_here _ _
      | apply infix_extend_left
  have hexO : exclusionInstrTokens
      <:+: wtokensS (OpenAIProvider.extract_prompt full_text speaker_name) := by
    rw [openai_extract_prompt_tokens]
    simp only [List.append_assoc]
    repeat first
      | exact infix_here _ _
      | apply infix_extend_left
  have hnmG : nameMatchingInstrTokens
      <:+: wtokensS (GeminiProvider.extract_prompt full_text speaker_name) := by
    rw [gemini_extract_prompt_tokens]
    simp only [List.append_assoc]
    repeat first
      | exact infix_here _ _
      | apply infix_extend_left
  have hexG : exclusionInstrTokens
      <:+: wtokensS (GeminiProvider.extract_prompt full_text speaker_name) := by
    rw [gemini_extract_prompt_tokens]
    simp only [List.append_assoc]
    repeat first
      | exact infix_here _ _
      | apply infix_extend_left
  have hnmR : nameMatchingInstrTokens
      <:+: wtokensS (OpenrouterProvider.extract_prompt full_text speaker_name) := by
    rw [openrouter_extract_prompt_tokens]
    simp only [List.append_assoc]
    repeat first
      | exact infix_here _ _
      | apply infix_extend_left
  have hexR : exclusionInstrTokens
      <:+: wtokensS (OpenrouterProvider.extract_prompt full_text speaker_name) := by
    rw [openrouter_extract_prompt_tokens]
    simp only [List.append_assoc]
    repeat first
      | exact infix_here _ _
      | apply infix_extend_left
  refine ⟨rfl, rfl, ?_, ?_, ?_⟩
  · rw [openrouter_extract_prompt_tokens, openai_extract_prompt_tokens]
  · rw [gemini_extract_prompt_tokens, openai_extract_prompt_tokens,
      extract_system_tokens]
    simp [List.append_assoc]
  · intro p hp
    simp only [List.mem_cons, List.mem_singleton, List.not_mem_nil, or_false] at hp
    rcases hp with hp | hp | hp | hp
    · subst hp; exact ⟨hnmO, hexO⟩
    · subst hp; exact ⟨hnmO, hexO⟩
    · subst hp; exact ⟨hnmG, hexG⟩
    · subst hp; exact ⟨hnmR, hexR⟩

/-- Witness for C8 at concrete inputs. -/
theorem claim_C8_witness :
    ClaudeProvider.extract_prompt "transcript body" "Alice"
      = OpenAIProvider.extract_prompt "transcript body" "Alice"
    ∧ wtokensS (OpenrouterProvider.extract_prompt "transcript body" "Alice")
      = wtokensS (OpenAIProvider.extract_prompt "transcript body" "Alice") := by
  obtain ⟨h1, _, h3, _⟩ := claim_C8 "transcript body" "Alice"
  exact ⟨h1, h3⟩
